import Mathlib

/-!
Verification of the pack/data plane of the TBCModLoader repository against its
natural-language specification.  Python classes are embedded shallowly: byte
buffers become `List Nat`, dictionaries become ordered association lists
(Python dicts preserve insertion order), fallible code returns `Option` or
`Except`, and the external AES/MD5 primitives from `Cryptodome`/`hashlib`
(which are not part of this repository) are abstracted as a `CryptoPrims`
record of uninterpreted functions.
-/

set_option maxHeartbeats 1000000

namespace TBCML

/-- A byte buffer (`tbcml.Data` contents).  Each entry is one byte. -/
abbrev ByteData := List Nat

/-- `tbcml.CountryCode`: closed enumeration {EN, JP, KR, TW} (country_code.py). -/
inductive CountryCode
  | EN
  | JP
  | KR
  | TW
deriving DecidableEq

/-- Modelled from the spec: `GameVersion` is "an ordered version triple with
comparison" (spec section 3.1); the class itself is not under src/.  The
`javaVariant` flag mirrors the `gv.is_java()` accessor that
`GamePacks.get_pack_gv` (pack.py) calls on it. -/
structure GameVersion where
  major : Nat
  minor : Nat
  patch : Nat
  javaVariant : Bool
deriving DecidableEq

/-- Lexicographic strict order on the version triple (spec section 3.1). -/
def GameVersion.ltv (a b : GameVersion) : Bool :=
  if a.major ≠ b.major then decide (a.major < b.major)
  else if a.minor ≠ b.minor then decide (a.minor < b.minor)
  else decide (a.patch < b.patch)

/-- `a >= b` on versions, the total-order complement of `ltv`. -/
def GameVersion.gev (a b : GameVersion) : Bool :=
  !GameVersion.ltv a b

/-- `GameVersion.from_string("8.9.0")`, the protocol cut-over version. -/
def gv890 : GameVersion :=
  { major := 8, minor := 9, patch := 0, javaVariant := false }

/-- Modelled from the spec: `Data.pad_pkcs7` (the `Data` class of tbcml.io is
not under src/; spec section 3.1 names "PKCS#7 pad/unpad").  Standard PKCS#7
with 16-byte blocks: append n copies of n where n = 16 - len mod 16. -/
def padPkcs7 (d : ByteData) : ByteData :=
  let n := 16 - d.length % 16
  d ++ List.replicate n n

/-- Modelled from the spec: `Data.unpad_pkcs7`, returning `none` where the
Python method raises `ValueError` (empty input, pad byte out of range, or
inconsistent pad bytes). -/
def unpadPkcs7 (d : ByteData) : Option ByteData :=
  match d.getLast? with
  | none => none
  | some n =>
    if n = 0 ∨ n > 16 ∨ n > d.length then none
    else if (d.drop (d.length - n)).all (fun b => b = n) then
      some (d.take (d.length - n))
    else none

/-- The external AES/MD5 primitives (`Cryptodome.Cipher.AES`, `hashlib.md5`);
they are third-party library code, not part of this repository, so they are
kept abstract.  `md5` returns the full 16-byte digest; the AES functions take
key (and iv) and the raw block-aligned data. -/
structure CryptoPrims where
  md5 : ByteData → ByteData
  aesEcbEncrypt : ByteData → ByteData → ByteData
  aesEcbDecrypt : ByteData → ByteData → ByteData
  aesCbcEncrypt : ByteData → ByteData → ByteData → ByteData
  aesCbcDecrypt : ByteData → ByteData → ByteData → ByteData

/-- A concrete instantiation of the abstract primitives (all transformations
the identity) used to evaluate the embedded code at concrete inputs. -/
def prims1 : CryptoPrims :=
  { md5 := fun d => d
    aesEcbEncrypt := fun _ d => d
    aesEcbDecrypt := fun _ d => d
    aesCbcEncrypt := fun _ _ d => d
    aesCbcDecrypt := fun _ _ d => d }

/-- Hex digit character for a value in [0, 16) (lowercase, as Python hex). -/
def hexDigitChar (n : Nat) : Char :=
  if n < 10 then Char.ofNat (48 + n) else Char.ofNat (87 + n)

/-- `Data.to_hex`: render bytes as a lowercase hex string. -/
def toHex (d : ByteData) : String :=
  String.mk (d.foldr (fun b acc => hexDigitChar (b / 16 % 16) :: hexDigitChar (b % 16) :: acc) [])

/-- `str.encode("utf-8")` for the ASCII strings used as keys.  All key
material in the source is ASCII, where UTF-8 is the identity on code points. -/
def asciiBytes (s : String) : ByteData :=
  s.data.map Char.toNat

/-- Value of one hex character. -/
def hexVal (c : Char) : Nat :=
  if c.toNat ≥ 97 then c.toNat - 87
  else if c.toNat ≥ 65 then c.toNat - 55
  else c.toNat - 48

/-- Auxiliary recursion for `fromHex`. -/
def fromHexChars : List Char → ByteData
  | a :: b :: rest => (16 * hexVal a + hexVal b) :: fromHexChars rest
  | _ => []

/-- `bytes.fromhex`: decode a hex string into bytes. -/
def fromHex (s : String) : ByteData :=
  fromHexChars s.data

/-- Does the character list start with the given pattern? -/
def startsWithChars : List Char → List Char → Bool
  | [], _ => true
  | _ :: _, [] => false
  | a :: as, b :: bs => a == b && startsWithChars as bs

/-- Substring test on character lists. -/
def containsSubChars (sub : List Char) : List Char → Bool
  | [] => startsWithChars sub []
  | c :: rest => startsWithChars sub (c :: rest) || containsSubChars sub rest

/-- Python substring test `sub in s`. -/
def containsSub (sub s : String) : Bool :=
  containsSubChars sub.data s.data

/-- ASCII lowercase conversion of one character (`str.lower` on the ASCII
pack names used by the source). -/
def charToLower (c : Char) : Char :=
  if 65 ≤ c.toNat ∧ c.toNat ≤ 90 then Char.ofNat (c.toNat + 32) else c

/-- `str.lower()`. -/
def toLowerStr (s : String) : String :=
  String.mk (s.data.map charToLower)

/-- Python `s.split(sep)` for a one-character separator (the source only
splits on `"_"`). -/
def splitOnChar (sep : Char) : List Char → List (List Char)
  | [] => [[]]
  | c :: rest =>
    let r := splitOnChar sep rest
    if c = sep then [] :: r
    else
      match r with
      | [] => [[c]]
      | h :: t => (c :: h) :: t

/-- Python `s.replace(old, new)`: left-to-right, non-overlapping.  The fuel
argument (instantiated with the string length) makes the recursion
structural; every step consumes at least one character, so the fuel never
runs out. -/
def replaceFuel (pat repl : List Char) : Nat → List Char → List Char
  | 0, s => s
  | _ + 1, [] => []
  | fuel + 1, c :: rest =>
    if startsWithChars pat (c :: rest) && !pat.isEmpty then
      repl ++ replaceFuel pat repl fuel (List.drop (pat.length - 1) rest)
    else c :: replaceFuel pat repl fuel rest

/-- Python `s.replace(old, new)` on strings. -/
def replaceStr (s pat repl : String) : String :=
  String.mk (replaceFuel pat.data repl.data s.data.length s.data)

/-- Whitespace test for `str.strip()`. -/
def isSpaceChar (c : Char) : Bool :=
  c == ' ' || c == '\t' || c == '\n' || c == '\r'

/-- Drop leading whitespace from a character list. -/
def dropLeadingSpaces : List Char → List Char
  | [] => []
  | c :: rest => if isSpaceChar c then dropLeadingSpaces rest else c :: rest

/-- Python `s.strip()`. -/
def stripStr (s : String) : String :=
  String.mk (dropLeadingSpaces ((dropLeadingSpaces s.data.reverse).reverse))

/-- Python `s.endswith(suffix)`. -/
def endsWithStr (s suffix : String) : Bool :=
  startsWithChars suffix.data.reverse s.data.reverse

/-- `PackFile.is_server_pack` (pack.py): `"Server" in pack_name`. -/
def isServerPack (packName : String) : Bool :=
  containsSub "Server" packName

/-- `PackFile.is_image_data_local_pack` (pack.py):
`"imagedatalocal" in pack_name.lower()`. -/
def isImageDataLocalPack (packName : String) : Bool :=
  containsSub "imagedatalocal" (toLowerStr packName)

/-- AES block mode. -/
inductive AesMode
  | ECB
  | CBC
deriving DecidableEq

/-- `crypto.AesCipher`: key, optional iv, mode and the `enable` bypass flag
("ImageDataLocal is a pack that is not encrypted"). -/
structure AesCipher where
  key : ByteData
  iv : Option ByteData
  mode : AesMode
  enable : Bool
deriving DecidableEq

/-- `AesCipher.encrypt`: identity when disabled, otherwise dispatch on the
presence of an iv exactly as `get_cipher` does (`AES.new(key, mode)` without
iv, `AES.new(key, mode, iv)` with one). -/
def AesCipher.encrypt (p : CryptoPrims) (c : AesCipher) (d : ByteData) : ByteData :=
  if !c.enable then d
  else
    match c.iv with
    | none => p.aesEcbEncrypt c.key d
    | some iv => p.aesCbcEncrypt c.key iv d

/-- `AesCipher.decrypt`: identity when disabled, otherwise AES decryption. -/
def AesCipher.decrypt (p : CryptoPrims) (c : AesCipher) (d : ByteData) : ByteData :=
  if !c.enable then d
  else
    match c.iv with
    | none => p.aesEcbDecrypt c.key d
    | some iv => p.aesCbcDecrypt c.key iv d

/-- `AesCipher.get_key_iv_from_cc`: the four fixed per-country hex pairs. -/
def getKeyIvFromCc (cc : CountryCode) : String × String :=
  match cc with
  | .JP => ("d754868de89d717fa9e7b06da45ae9e3", "40b2131a9f388ad4e5002a98118f6128")
  | .EN => ("0ad39e4aeaf55aa717feb1825edef521", "d1d7e708091941d90cdf8aa5f30bb0c2")
  | .KR => ("bea585eb993216ef4dcb88b625c3df98", "9b13c2121d39f1353a125fed98696649")
  | .TW => ("313d9858a7fb939def1d7d859629087d", "0e3743eb53bf5944d1ae7e10c2e54bdf")

/-- The legacy ECB pack key: `hex(md5("battlecats")[:8])` encoded as UTF-8. -/
def battlecatsEcbKey (p : CryptoPrims) : ByteData :=
  asciiBytes (toHex ((p.md5 (asciiBytes "battlecats")).take 8))

/-- `AesCipher.get_cipher_from_pack` (crypto.py): per-pack cipher derivation.
`enable` starts as the negation of the ImageDataLocal test and is forced on
by `force_server`; Server packs, versions below 8.9.0 and forced server mode
use legacy ECB, everything else CBC under (possibly caller-overridden)
country key material. -/
def getCipherFromPack (p : CryptoPrims) (cc : CountryCode) (packName : String)
    (gv : GameVersion) (forceServer : Bool) (key iv : Option String) : AesCipher :=
  let pair := getKeyIvFromCc cc
  let key := key.getD pair.1
  let iv := iv.getD pair.2
  let enable0 := !isImageDataLocalPack packName
  let enable := if forceServer then true else enable0
  if isServerPack packName || GameVersion.ltv gv gv890 || forceServer then
    { key := battlecatsEcbKey p, iv := none, mode := .ECB, enable := enable }
  else
    { key := fromHex key, iv := some (fromHex iv), mode := .CBC, enable := enable }

/-- Modelled from the spec: the known language-suffix set
`{en, ja, ko, tw, de, es, fr, it, th}` (spec section 3.2); the `Languages`
enum itself is not under src/.  `Languages.get_all_strings` returns these
tags, and `Languages.get_all` iterates them for suffix stripping. -/
def languagesAllStrings : List String :=
  ["en", "ja", "ko", "tw", "de", "es", "fr", "it", "th"]

/-- `GameFile` (pack.py): one addressable pack entry.  `decCache` is the
private `__dec_data` lazy-plaintext slot; `originalDecData` mirrors the
`original_dec_data` attribute, which `__init__` sets to `None` (and which no
other statement in the source ever assigns). -/
structure GameFile where
  encData : Option ByteData
  fileName : String
  packName : String
  cc : CountryCode
  gv : GameVersion
  key : Option String
  iv : Option String
  decCache : Option ByteData
  originalDecData : Option ByteData
deriving DecidableEq

/-- The value produced by the `GameFile.dec_data` property: the cached
plaintext if present, otherwise decrypt `enc_data` with the pack cipher and
strip PKCS#7 padding, keeping the raw decryption when unpadding fails
(the `try ... except ValueError: pass`).  A file with neither ciphertext nor
plaintext raises `ValueError` in the source; that state violates the
container invariant ("at least one must be present", spec section 3.2) and is
mapped to `[]` here. -/
def decDataVal (p : CryptoPrims) (gf : GameFile) : ByteData :=
  match gf.decCache with
  | some d => d
  | none =>
    match gf.encData with
    | none => []
    | some e =>
      let data := AesCipher.decrypt p (getCipherFromPack p gf.cc gf.packName gf.gv false gf.key gf.iv) e
      match unpadPkcs7 data with
      | some u => u
      | none => data

/-- The state effect of reading the `dec_data` property: memoise the
plaintext in `__dec_data`.  `original_dec_data` is NOT touched (the source
never assigns it). -/
def touchDecData (p : CryptoPrims) (gf : GameFile) : GameFile :=
  { gf with decCache := some (decDataVal p gf) }

/-- `GameFile.encrypt` (pack.py): return the held ciphertext when the
plaintext slot is empty or equals `original_dec_data`, or when the pack is
ImageDataLocal and server mode is not forced; otherwise re-pad and re-encrypt
the plaintext.  `none` models the `ValueError` raised when neither buffer is
present. -/
def GameFile.encrypt (p : CryptoPrims) (gf : GameFile) (forceServer : Bool)
    (key iv : Option String) : Option ByteData :=
  if gf.encData.isSome && (gf.decCache.isNone || gf.decCache == gf.originalDecData) then
    gf.encData
  else if gf.encData.isSome && (isImageDataLocalPack gf.packName && !forceServer) then
    gf.encData
  else
    match gf.decCache with
    | none => none
    | some dec =>
      some (AesCipher.encrypt p (getCipherFromPack p gf.cc gf.packName gf.gv forceServer key iv) (padPkcs7 dec))

/-- Total wrapper of `GameFile.encrypt` used by the bulk re-pack loop; the
`none` case (no ciphertext and no plaintext) is unreachable for files that
satisfy the container invariant. -/
def GameFile.encryptD (p : CryptoPrims) (gf : GameFile) (forceServer : Bool)
    (key iv : Option String) : ByteData :=
  (GameFile.encrypt p gf forceServer key iv).getD []

/-- `GameFile.is_anim` (pack.py). -/
def isAnimFile (fileName : String) : Bool :=
  [".maanim", ".mamodel", ".imgcut"].any (fun ext => endsWithStr fileName ext)

/-- Lookup in an insertion-ordered Python dict (first, and only, binding of
the key). -/
def dictGet {κ α : Type} [DecidableEq κ] : List (κ × α) → κ → Option α
  | [], _ => none
  | kv :: rest, k => if kv.1 = k then some kv.2 else dictGet rest k

/-- Assignment `d[k] = v` on an insertion-ordered Python dict: overwrite in
place when the key exists, append otherwise. -/
def dictSet {κ α : Type} [DecidableEq κ] (d : List (κ × α)) (k : κ) (v : α) : List (κ × α) :=
  match d with
  | [] => [(k, v)]
  | kv :: rest => if kv.1 = k then (k, v) :: rest else kv :: dictSet rest k v

/-- `PackFile` (pack.py): name, country, version, ordered file map and the
dirty flag. -/
structure PackFile where
  packName : String
  countryCode : CountryCode
  gv : GameVersion
  files : List (String × GameFile)
  modified : Bool
deriving DecidableEq

/-- `PackFile.set_file`: update the plaintext of an existing entry in place
(via the `dec_data` setter) or insert a fresh decrypted-only `GameFile`;
returns the affected file together with the updated pack. -/
def PackFile.setFile (pk : PackFile) (fileName : String) (fileData : ByteData) : GameFile × PackFile :=
  match dictGet pk.files fileName with
  | none =>
    let f : GameFile :=
      { encData := none, fileName := fileName, packName := pk.packName
        cc := pk.countryCode, gv := pk.gv, key := none, iv := none
        decCache := some fileData, originalDecData := none }
    (f, { pk with files := dictSet pk.files fileName f })
  | some f =>
    let f2 := { f with decCache := some fileData }
    (f2, { pk with files := dictSet pk.files fileName f2 })

/-- `PackFile.convert_pack_name_server_local`: map a server pack name onto
its Local counterpart (note the source substitutes the whole name with the
matched template) and strip the first matching language suffix. -/
def convertPackNameServerLocal (packName : String) : String :=
  let packs := ["MapServer", "NumberServer", "UnitServer", "ImageServer", "ImageDataServer"]
  let fn :=
    match packs.find? (fun pk => containsSub pk packName) with
    | some pk => replaceStr pk "Server" "Local"
    | none => packName
  match languagesAllStrings.find? (fun lang => containsSub ("_" ++ lang) fn) with
  | some lang => replaceStr fn ("_" ++ lang) ""
  | none => fn

/-- CSV view: a list of rows of cells.  The `CSV` class of tbcml.io is not
under src/; only the structure needed by the pack codec is modelled
(spec section 6.1: comma-delimited rows, newline-separated). -/
structure CSV where
  lines : List (List String)
deriving DecidableEq

/-- Modelled from the spec: `CSV.to_data` renders rows comma-joined and
newline-separated (spec section 6.1). -/
def csvToData (c : CSV) : ByteData :=
  asciiBytes (String.intercalate "\n" (c.lines.map (fun row => String.intercalate "," row)))

/-- The per-entry loop of `PackFile.to_pack_list_file`: encrypt each file,
record `[name, offset, length]`, and accumulate ciphertexts with a running
offset. -/
def packEntries (p : CryptoPrims) (key iv : Option String) :
    List (String × GameFile) → Nat → List (List String) × List ByteData
  | [], _ => ([], [])
  | (_, f) :: rest, offset =>
    let d := GameFile.encryptD p f false key iv
    let (ls, ds) := packEntries p key iv rest (offset + d.length)
    ([f.fileName, toString offset, toString d.length] :: ls, d :: ds)

/-- `PackFile.to_pack_list_file`: emit `(pack_name, pack_bytes, list_bytes)`,
the list CSV being headed by the entry count, PKCS#7-padded and ECB-encrypted
under `hex(md5("pack")[:8])`. -/
def PackFile.toPackListFile (p : CryptoPrims) (pk : PackFile) (key iv : Option String) :
    String × ByteData × ByteData :=
  let (lsLines, datas) := packEntries p key iv pk.files 0
  let lsCsv : CSV := { lines := [toString pk.files.length] :: lsLines }
  let packData := datas.flatten
  let listKey := asciiBytes (toHex ((p.md5 (asciiBytes "pack")).take 8))
  let lsEnc := AesCipher.encrypt p { key := listKey, iv := none, mode := .ECB, enable := true }
    (padPkcs7 (csvToData lsCsv))
  (pk.packName, packData, lsEnc)

/-- `GamePacks` (pack.py): the catalog.  `modifiedPacks` is the key set of
the `modified_packs` dict (values are only ever set to `True`); the
`localizable` view built by `init_data` carries no state the claims touch and
is omitted. -/
structure GamePacks where
  packs : List (String × PackFile)
  countryCode : CountryCode
  gv : GameVersion
  modifiedPacks : List String
  csvCache : List (String × CSV)
deriving DecidableEq

/-- The language-suffix skip test of `GamePacks.find_file`: the pack name
splits on `_` into more than one part and the second part is a known
language tag. -/
def isLangSuffixed (packName : String) : Bool :=
  let parts := splitOnChar (Char.ofNat 95) packName.data
  decide (parts.length > 1) && languagesAllStrings.contains (String.mk (parts.getD 1 []))

/-- The search loop of `GamePacks.find_file`: collect, in pack-insertion
order, every pack entry under the name, skipping packs whose name has a
known language tag after the first underscore.  (The loop body reads the
entry twice in the source; both reads return the same binding.) -/
def collectFound (gp : GamePacks) (fileName : String) : List GameFile :=
  gp.packs.filterMap (fun pnpk =>
    match dictGet pnpk.2.files fileName with
    | none => none
    | some f => if isLangSuffixed pnpk.1 then none else some f)

/-- `GamePacks.find_file`: rank the collected candidates.  With two hits the
first non-Server one wins; with two Server hits the larger plaintext wins,
ties going to the first; zero or three-plus hits yield `None`.  (`show_error`
only prints; both settings return `None` in those branches.  The plaintext
length reads memoise lazily decrypted data in the source; that memoisation is
the pure function `decDataVal` and is elided from state.) -/
def rankFound (p : CryptoPrims) : List GameFile → Option GameFile
  | [] => none
  | [f] => some f
  | [f0, f1] =>
    if !isServerPack f0.packName then some f0
    else if !isServerPack f1.packName then some f1
    else if (decDataVal p f0).length > (decDataVal p f1).length then some f0
    else if (decDataVal p f0).length < (decDataVal p f1).length then some f1
    else some f0
  | _ => none

/-- `GamePacks.find_file` (pack.py): collect candidates, then rank. -/
def findFile (p : CryptoPrims) (gp : GamePacks) (fileName : String) : Option GameFile :=
  rankFound p (collectFound gp fileName)

/-- `GamePacks.to_java_name`. -/
def toJavaName (name : String) : String :=
  toLowerStr name ++ "1"

/-- `GamePacks.get_pack_gv`: resolve a pack name (adding the java `1` suffix
on java game versions) and fetch it, returning the dict key alongside so a
mutated pack can be stored back. -/
def getPackGv (gp : GamePacks) (packName : String) : Option (String × PackFile) :=
  let pn :=
    if !endsWithStr packName "1" then
      if gp.gv.javaVariant then toJavaName packName else packName
    else packName
  (dictGet gp.packs pn).map (fun pk => (pn, pk))

/-- Key insertion for `self.modified_packs[name] = True`. -/
def addModified (l : List String) (k : String) : List String :=
  if l.contains k then l else l ++ [k]

/-- The write path shared by both arms of `GamePacks.set_file`: convert the
originating pack name to its Local counterpart, write into that pack and mark
the written file's pack name dirty. -/
def setFileWrite (gp : GamePacks) (fileName : String) (data : ByteData)
    (srcPackName : String) : Except String (GameFile × GamePacks) :=
  let newPackName := convertPackNameServerLocal srcPackName
  match getPackGv gp newPackName with
  | none => Except.error "Could not find pack"
  | some (pn, pk) =>
    let fpk := PackFile.setFile pk fileName data
    Except.ok (fpk.1,
      { gp with
        packs := dictSet gp.packs pn fpk.2
        modifiedPacks := addModified gp.modifiedPacks fpk.1.packName })

/-- `GamePacks.set_file` (pack.py): reject blank names, return the found file
unchanged when its plaintext already equals `data`, otherwise route by
extension (animations to ImageDataLocal, other `.png` to ImageLocal, the rest
to DataLocal) or by the found file's pack, and write. -/
def GamePacks.setFile (p : CryptoPrims) (gp : GamePacks) (fileName : String)
    (data : ByteData) : Except String (GameFile × GamePacks) :=
  if stripStr fileName = "" then Except.error "File name cannot be empty"
  else
    match findFile p gp fileName with
    | some file =>
      if decDataVal p file == data then Except.ok (file, gp)
      else setFileWrite gp fileName data file.packName
    | none =>
      let packOpt :=
        if isAnimFile fileName then getPackGv gp "ImageDataLocal"
        else if endsWithStr fileName ".png" then getPackGv gp "ImageLocal"
        else getPackGv gp "DataLocal"
      match packOpt with
      | none => Except.error "Could not find pack"
      | some (_, pk) => setFileWrite gp fileName data pk.packName

/-- `GamePacks.to_packs_lists` (pack.py): re-emit every pack that is dirty
(keyed in `modified_packs` or flagged `modified`) or, when a new key/iv is
supplied on a game version of at least 8.9.0, every pack; Server packs are
skipped inside the loop. -/
def GamePacks.toPacksLists (p : CryptoPrims) (gp : GamePacks) (key iv : Option String) :
    List (String × ByteData × ByteData) :=
  let shouldReencrypt := (key.isSome || iv.isSome) && GameVersion.gev gp.gv gv890
  gp.packs.filterMap (fun pnpk =>
    if gp.modifiedPacks.contains pnpk.1 || pnpk.2.modified || shouldReencrypt then
      if isServerPack pnpk.1 then none
      else some (PackFile.toPackListFile p pnpk.2 key iv)
    else none)

/-- `MapIndexType` (core/game_data/map/map.py): the stage-id partition
markers. -/
inductive MapIndexType
  | SOL
  | REGULAR_EVENT
  | COLLAB
  | STORY
  | EXTRA
  | DOJO_CATCLAW
  | TOWER
  | CHALLENGE
  | UNCANNY
  | DRINK
  | LEGEND_QUEST
  | OUTBREAKS_EOC
  | OUTBREAKS_ITF
  | OUTBREAKS_COTC
  | FILIBUSTER
  | GAUNTLET
  | ENGIMA
  | COLLAB_GAUNTLET
  | BEHEMOTH
deriving DecidableEq

/-- The enum member values (range markers). -/
def MapIndexType.value : MapIndexType → Int
  | .SOL => 0
  | .REGULAR_EVENT => 1000
  | .COLLAB => 2000
  | .STORY => 3000
  | .EXTRA => 4000
  | .DOJO_CATCLAW => 6000
  | .TOWER => 7000
  | .CHALLENGE => 12000
  | .UNCANNY => 13000
  | .DRINK => 14000
  | .LEGEND_QUEST => 16000
  | .OUTBREAKS_EOC => 20000
  | .OUTBREAKS_ITF => 21000
  | .OUTBREAKS_COTC => 22000
  | .FILIBUSTER => 23000
  | .GAUNTLET => 24000
  | .ENGIMA => 25000
  | .COLLAB_GAUNTLET => 27000
  | .BEHEMOTH => 31000

/-- `MapIndexType.get_all` and the `types_sorted` list of `from_index`:
`sorted(MapIndexType, key=value)`.  The declaration order above is already
ascending in `value` (checked by `mapIndexGetAll_sorted` below), and Python
`sorted` is stable, so the sorted list is the declaration-order list. -/
def mapIndexGetAll : List MapIndexType :=
  [.SOL, .REGULAR_EVENT, .COLLAB, .STORY, .EXTRA, .DOJO_CATCLAW, .TOWER,
   .CHALLENGE, .UNCANNY, .DRINK, .LEGEND_QUEST, .OUTBREAKS_EOC, .OUTBREAKS_ITF,
   .OUTBREAKS_COTC, .FILIBUSTER, .GAUNTLET, .ENGIMA, .COLLAB_GAUNTLET, .BEHEMOTH]

/-- Python list indexing, including the negative-index wrap-around
(`l[-1]` is the last element).  Only `-1` can arise in `from_index`. -/
def pyIdx {α : Type} (l : List α) (i : Int) : Option α :=
  if 0 ≤ i then l.get? i.toNat else l.get? (l.length - (-i).toNat)

/-- The scan loop of `MapIndexType.from_index`: walk `types_sorted` with a
running position `i`; on the first marker exceeding the index return
`types_sorted[i - 1]` (Python indexing, so `i = 0` wraps to the LAST
element), on an exact marker hit return it, otherwise fall through to
`None`. -/
def fromIndexLoop (all : List MapIndexType) :
    List MapIndexType → Int → Int → Option MapIndexType
  | [], _, _ => none
  | t :: rest, i, index =>
    if index < t.value then pyIdx all (i - 1)
    else if index = t.value then some t
    else fromIndexLoop all rest (i + 1) index

/-- `MapIndexType.from_index` (core/game_data/map/map.py). -/
def MapIndexType.fromIndex (index : Int) : Option MapIndexType :=
  fromIndexLoop mapIndexGetAll mapIndexGetAll 0 index

/-- Keys of an integer-keyed dict, in insertion order. -/
def dictKeys {α : Type} (d : List (Int × α)) : List Int :=
  d.map (fun kv => kv.1)

/-- The per-id body of the `Maps.import_maps` loop: skip ids the incoming mod
has no map for; when the fresh base map exists and differs from the incoming
one (or when no base map exists), store the incoming map, else leave the
current entry alone. -/
def importStep {α : Type} [DecidableEq α] (gdMaps otherMaps : List (Int × α))
    (id : Int) (selfMaps : List (Int × α)) : List (Int × α) :=
  match dictGet otherMaps id with
  | none => selfMaps
  | some m =>
    match dictGet gdMaps id with
    | some g => if g ≠ m then dictSet selfMaps id m else selfMaps
    | none => dictSet selfMaps id m

/-- The `for id in all_keys` loop of `Maps.import_maps`. -/
def importMapsLoop {α : Type} [DecidableEq α] (gdMaps otherMaps : List (Int × α)) :
    List Int → List (Int × α) → List (Int × α)
  | [], selfMaps => selfMaps
  | id :: rest, selfMaps =>
    importMapsLoop gdMaps otherMaps rest (importStep gdMaps otherMaps id selfMaps)

/-- `Maps.import_maps` (core/game_data/map/map.py), generic in the `Map`
record value (the source compares maps with structural `__eq__`, embedded as
decidable equality).  The base dict `gdMaps` stands for
`Maps.from_game_data(game_data).maps`; `all_keys` is a Python set whose
iteration order is unspecified, embedded as the deduplicated concatenation in
the source's update order (the per-id updates are independent, so the order
cannot affect the result). -/
def importMaps {α : Type} [DecidableEq α] (selfMaps otherMaps gdMaps : List (Int × α)) :
    List (Int × α) :=
  let allKeys := (dictKeys gdMaps ++ dictKeys otherMaps ++ dictKeys selfMaps).dedup
  importMapsLoop gdMaps otherMaps allKeys selfMaps

/-- `FormType` (bcml cats.py). -/
inductive FormType
  | FIRST
  | SECOND
  | THIRD
  | FOURTH
deriving DecidableEq

/-- Python truthiness `bool(i)` on an integer slot. -/
def intToBool (i : Int) : Bool :=
  i != 0

/-- Python `int(b)` on a boolean field. -/
def boolToInt (b : Bool) : Int :=
  if b then 1 else 0

/-- `Stats` (bcml cats.py): the 108-slot unit stats record.  The helper
wrappers of the `unit` module (Speed, Frames, Range, Knockback, Freeze, …)
are not under src/; per the spec ("Reader/writer mirror the same slot map",
spec sections 3.3 and 4.4) they are plain holders of the slot values read by
`assign` and emitted by `to_raw_data`, so each wrapper is flattened into the
fields it stores. -/
structure Stats where
  catId : Int
  form : FormType
  hp : Int
  kbs : Int
  speed : Int
  attackInterval : Int
  range : Int
  cost : Int
  rechargeTime : Int
  collisionStart : Int
  collisionWidth : Int
  targetRed : Bool
  unused : Int
  areaAttack : Bool
  zLayersMin : Int
  zLayersMax : Int
  targetFloating : Bool
  targetBlack : Bool
  targetMetal : Bool
  targetTraitless : Bool
  targetAngel : Bool
  targetAlien : Bool
  targetZombie : Bool
  strong : Bool
  knockbackProb : Int
  freezeProb : Int
  freezeTime : Int
  slowProb : Int
  slowTime : Int
  resistant : Bool
  massiveDamage : Bool
  critProb : Int
  attacksOnly : Bool
  extraMoney : Bool
  baseDestroyer : Bool
  waveProb : Int
  waveLevel : Int
  waveIsMini : Bool
  weakenProb : Int
  weakenTime : Int
  weakenMultiplier : Int
  strengthenHpPercent : Int
  strengthenMultiplierPercent : Int
  lethalStrikeProb : Int
  isMetal : Bool
  waveImmunity : Bool
  waveBlocker : Bool
  knockbackImmunity : Bool
  freezeImmunity : Bool
  slowImmunity : Bool
  weakenImmunity : Bool
  zombieKiller : Bool
  witchKiller : Bool
  targetWitch : Bool
  shockwaveImmune : Bool
  timeBeforeDeath : Int
  attackStateAttacksBefore : Int
  attackStateId : Int
  attack1Damage : Int
  attack1Foreswing : Int
  attack1UseAbility : Bool
  attack1LongDistanceFlag : Bool
  attack1LongDistanceStart : Int
  attack1LongDistanceRange : Int
  attack2Damage : Int
  attack2Foreswing : Int
  attack2UseAbility : Bool
  attack2LongDistanceFlag : Bool
  attack2LongDistanceStart : Int
  attack2LongDistanceRange : Int
  attack3Damage : Int
  attack3Foreswing : Int
  attack3UseAbility : Bool
  attack3LongDistanceFlag : Bool
  attack3LongDistanceStart : Int
  attack3LongDistanceRange : Int
  spawnAnimModelId : Int
  spawnAnimHasEntryMaanim : Bool
  soulAnimModelId : Int
  soulAnimHasDeathMaanim : Bool
  barrierBreakerProb : Int
  warpProb : Int
  warpTime : Int
  warpMinDistance : Int
  warpMaxDistance : Int
  warpBlocker : Bool
  targetEva : Bool
  evaKiller : Bool
  targetRelic : Bool
  curseImmunity : Bool
  insanelyTough : Bool
  insaneDamage : Bool
  savageBlowProb : Int
  savageBlowMultiplier : Int
  dodgeProb : Int
  dodgeTime : Int
  surgeProb : Int
  surgeStart : Int
  surgeRange : Int
  surgeLevel : Int
  toxicImmunity : Bool
  surgeImmunity : Bool
  curseProb : Int
  curseTime : Int
  shieldPierceProb : Int
  targetAku : Bool
  collossusSlayer : Bool
  soulStrike : Bool
  behemothSlayer : Bool
  behemothDodgeProb : Int
  behemothDodgeTime : Int
deriving DecidableEq

/-- `Stats.extend`: pad the raw list with zeros up to 108 entries (a longer
list is left as is, `[0] * n` being empty for negative n). -/
def statsExtend (raw : List Int) : List Int :=
  raw ++ List.replicate (108 - raw.length) 0

/-- `Stats.__init__` / `Stats.assign`: zero-extend, then read every slot of
the documented index map.  Indexing uses `getD _ 0`; the extended list has at
least 108 entries, so every read below is within bounds and the default is
never taken.  `attack_1` is constructed with `LongDistanceFlag = True`
(the literal `True` argument in the source). -/
def statsFromRaw (catId : Int) (form : FormType) (raw0 : List Int) : Stats :=
  let raw := statsExtend raw0
  { catId := catId
    form := form
    hp := raw.getD 0 0
    kbs := raw.getD 1 0
    speed := raw.getD 2 0
    attackInterval := raw.getD 4 0
    range := raw.getD 5 0
    cost := raw.getD 6 0
    rechargeTime := raw.getD 7 0
    collisionStart := raw.getD 8 0
    collisionWidth := raw.getD 9 0
    targetRed := intToBool (raw.getD 10 0)
    unused := raw.getD 11 0
    areaAttack := intToBool (raw.getD 12 0)
    zLayersMin := raw.getD 14 0
    zLayersMax := raw.getD 15 0
    targetFloating := intToBool (raw.getD 16 0)
    targetBlack := intToBool (raw.getD 17 0)
    targetMetal := intToBool (raw.getD 18 0)
    targetTraitless := intToBool (raw.getD 19 0)
    targetAngel := intToBool (raw.getD 20 0)
    targetAlien := intToBool (raw.getD 21 0)
    targetZombie := intToBool (raw.getD 22 0)
    strong := intToBool (raw.getD 23 0)
    knockbackProb := raw.getD 24 0
    freezeProb := raw.getD 25 0
    freezeTime := raw.getD 26 0
    slowProb := raw.getD 27 0
    slowTime := raw.getD 28 0
    resistant := intToBool (raw.getD 29 0)
    massiveDamage := intToBool (raw.getD 30 0)
    critProb := raw.getD 31 0
    attacksOnly := intToBool (raw.getD 32 0)
    extraMoney := intToBool (raw.getD 33 0)
    baseDestroyer := intToBool (raw.getD 34 0)
    waveProb := raw.getD 35 0
    waveLevel := raw.getD 36 0
    waveIsMini := intToBool (raw.getD 94 0)
    weakenProb := raw.getD 37 0
    weakenTime := raw.getD 38 0
    weakenMultiplier := raw.getD 39 0
    strengthenHpPercent := raw.getD 40 0
    strengthenMultiplierPercent := raw.getD 41 0
    lethalStrikeProb := raw.getD 42 0
    isMetal := intToBool (raw.getD 43 0)
    waveImmunity := intToBool (raw.getD 46 0)
    waveBlocker := intToBool (raw.getD 47 0)
    knockbackImmunity := intToBool (raw.getD 48 0)
    freezeImmunity := intToBool (raw.getD 49 0)
    slowImmunity := intToBool (raw.getD 50 0)
    weakenImmunity := intToBool (raw.getD 51 0)
    zombieKiller := intToBool (raw.getD 52 0)
    witchKiller := intToBool (raw.getD 53 0)
    targetWitch := intToBool (raw.getD 54 0)
    shockwaveImmune := intToBool (raw.getD 56 0)
    timeBeforeDeath := raw.getD 57 0
    attackStateAttacksBefore := raw.getD 55 0
    attackStateId := raw.getD 58 0
    attack1Damage := raw.getD 3 0
    attack1Foreswing := raw.getD 13 0
    attack1UseAbility := intToBool (raw.getD 63 0)
    attack1LongDistanceFlag := true
    attack1LongDistanceStart := raw.getD 44 0
    attack1LongDistanceRange := raw.getD 45 0
    attack2Damage := raw.getD 59 0
    attack2Foreswing := raw.getD 61 0
    attack2UseAbility := intToBool (raw.getD 64 0)
    attack2LongDistanceFlag := intToBool (raw.getD 99 0)
    attack2LongDistanceStart := raw.getD 100 0
    attack2LongDistanceRange := raw.getD 101 0
    attack3Damage := raw.getD 60 0
    attack3Foreswing := raw.getD 62 0
    attack3UseAbility := intToBool (raw.getD 65 0)
    attack3LongDistanceFlag := intToBool (raw.getD 102 0)
    attack3LongDistanceStart := raw.getD 103 0
    attack3LongDistanceRange := raw.getD 104 0
    spawnAnimModelId := raw.getD 66 0
    spawnAnimHasEntryMaanim := intToBool (raw.getD 68 0)
    soulAnimModelId := raw.getD 67 0
    soulAnimHasDeathMaanim := intToBool (raw.getD 69 0)
    barrierBreakerProb := raw.getD 70 0
    warpProb := raw.getD 71 0
    warpTime := raw.getD 72 0
    warpMinDistance := raw.getD 73 0
    warpMaxDistance := raw.getD 74 0
    warpBlocker := intToBool (raw.getD 75 0)
    targetEva := intToBool (raw.getD 76 0)
    evaKiller := intToBool (raw.getD 77 0)
    targetRelic := intToBool (raw.getD 78 0)
    curseImmunity := intToBool (raw.getD 79 0)
    insanelyTough := intToBool (raw.getD 80 0)
    insaneDamage := intToBool (raw.getD 81 0)
    savageBlowProb := raw.getD 82 0
    savageBlowMultiplier := raw.getD 83 0
    dodgeProb := raw.getD 84 0
    dodgeTime := raw.getD 85 0
    surgeProb := raw.getD 86 0
    surgeStart := raw.getD 87 0
    surgeRange := raw.getD 88 0
    surgeLevel := raw.getD 89 0
    toxicImmunity := intToBool (raw.getD 90 0)
    surgeImmunity := intToBool (raw.getD 91 0)
    curseProb := raw.getD 92 0
    curseTime := raw.getD 93 0
    shieldPierceProb := raw.getD 95 0
    targetAku := intToBool (raw.getD 96 0)
    collossusSlayer := intToBool (raw.getD 97 0)
    soulStrike := intToBool (raw.getD 98 0)
    behemothSlayer := intToBool (raw.getD 105 0)
    behemothDodgeProb := raw.getD 106 0
    behemothDodgeTime := raw.getD 107 0 }

/-- `Stats.to_raw_data`: the 108-entry slot list, in index order 0..107. -/
def statsToRaw (s : Stats) : List Int :=
  [s.hp, s.kbs, s.speed, s.attack1Damage, s.attackInterval, s.range, s.cost,
   s.rechargeTime, s.collisionStart, s.collisionWidth, boolToInt s.targetRed,
   s.unused, boolToInt s.areaAttack, s.attack1Foreswing, s.zLayersMin,
   s.zLayersMax, boolToInt s.targetFloating, boolToInt s.targetBlack,
   boolToInt s.targetMetal, boolToInt s.targetTraitless, boolToInt s.targetAngel,
   boolToInt s.targetAlien, boolToInt s.targetZombie, boolToInt s.strong,
   s.knockbackProb, s.freezeProb, s.freezeTime, s.slowProb, s.slowTime,
   boolToInt s.resistant, boolToInt s.massiveDamage, s.critProb,
   boolToInt s.attacksOnly, boolToInt s.extraMoney, boolToInt s.baseDestroyer,
   s.waveProb, s.waveLevel, s.weakenProb, s.weakenTime, s.weakenMultiplier,
   s.strengthenHpPercent, s.strengthenMultiplierPercent, s.lethalStrikeProb,
   boolToInt s.isMetal, s.attack1LongDistanceStart, s.attack1LongDistanceRange,
   boolToInt s.waveImmunity, boolToInt s.waveBlocker, boolToInt s.knockbackImmunity,
   boolToInt s.freezeImmunity, boolToInt s.slowImmunity, boolToInt s.weakenImmunity,
   boolToInt s.zombieKiller, boolToInt s.witchKiller, boolToInt s.targetWitch,
   s.attackStateAttacksBefore, boolToInt s.shockwaveImmune, s.timeBeforeDeath,
   s.attackStateId, s.attack2Damage, s.attack3Damage, s.attack2Foreswing,
   s.attack3Foreswing, boolToInt s.attack1UseAbility, boolToInt s.attack2UseAbility,
   boolToInt s.attack3UseAbility, s.spawnAnimModelId, s.soulAnimModelId,
   boolToInt s.spawnAnimHasEntryMaanim, boolToInt s.soulAnimHasDeathMaanim,
   s.barrierBreakerProb, s.warpProb, s.warpTime, s.warpMinDistance,
   s.warpMaxDistance, boolToInt s.warpBlocker, boolToInt s.targetEva,
   boolToInt s.evaKiller, boolToInt s.targetRelic, boolToInt s.curseImmunity,
   boolToInt s.insanelyTough, boolToInt s.insaneDamage, s.savageBlowProb,
   s.savageBlowMultiplier, s.dodgeProb, s.dodgeTime, s.surgeProb, s.surgeStart,
   s.surgeRange, s.surgeLevel, boolToInt s.toxicImmunity, boolToInt s.surgeImmunity,
   s.curseProb, s.curseTime, boolToInt s.waveIsMini, s.shieldPierceProb,
   boolToInt s.targetAku, boolToInt s.collossusSlayer, boolToInt s.soulStrike,
   boolToInt s.attack2LongDistanceFlag, s.attack2LongDistanceStart,
   s.attack2LongDistanceRange, boolToInt s.attack3LongDistanceFlag,
   s.attack3LongDistanceStart, s.attack3LongDistanceRange,
   boolToInt s.behemothSlayer, s.behemothDodgeProb, s.behemothDodgeTime]

/-- `Rarity` (bcml cats.py). -/
inductive Rarity
  | NORMAL
  | SPECIAL
  | RARE
  | SUPER_RARE
  | UBER_RARE
  | LEGEND_RARE
deriving DecidableEq

/-- `Rarity.value`. -/
def Rarity.value : Rarity → Int
  | .NORMAL => 0
  | .SPECIAL => 1
  | .RARE => 2
  | .SUPER_RARE => 3
  | .UBER_RARE => 4
  | .LEGEND_RARE => 5

/-- The `Rarity(x)` enum constructor; `none` models the `ValueError` on an
unknown value. -/
def Rarity.fromValue (i : Int) : Option Rarity :=
  if i = 0 then some .NORMAL
  else if i = 1 then some .SPECIAL
  else if i = 2 then some .RARE
  else if i = 3 then some .SUPER_RARE
  else if i = 4 then some .UBER_RARE
  else if i = 5 then some .LEGEND_RARE
  else none

/-- `GatchaRarity` (bcml cats.py). -/
inductive GatchaRarity
  | NONE
  | RARE
  | SUPER_RARE
  | UBER_RARE
  | LEGEND_RARE
deriving DecidableEq

/-- `GatchaRarity.value`. -/
def GatchaRarity.value : GatchaRarity → Int
  | .NONE => 0
  | .RARE => 1
  | .SUPER_RARE => 2
  | .UBER_RARE => 3
  | .LEGEND_RARE => 4

/-- The `GatchaRarity(x)` enum constructor; `none` models the `ValueError`. -/
def GatchaRarity.fromValue (i : Int) : Option GatchaRarity :=
  if i = 0 then some .NONE
  else if i = 1 then some .RARE
  else if i = 2 then some .SUPER_RARE
  else if i = 3 then some .UBER_RARE
  else if i = 4 then some .LEGEND_RARE
  else none

/-- `UnitBuyData` (bcml cats.py): the 63-slot unitbuy record.  The slice
fields `upgrade_costs` (`raw_data[2:12]`) and the `EvolveItems` block are
flattened into individual slot fields.  `EvolveItems` lives in the `unit`
module, which is not under src/; modelled from the spec, it holds the
evolution-item slots between `evolve_cost` (index 27) and `unknown_48`, i.e.
indices 28..47, whose `to_list` re-emits them (canonical width 63, spec
sections 3.3 and 4.4). -/
structure UnitBuyData where
  catId : Int
  stageUnlock : Int
  purchaseCost : Int
  upgradeCost0 : Int
  upgradeCost1 : Int
  upgradeCost2 : Int
  upgradeCost3 : Int
  upgradeCost4 : Int
  upgradeCost5 : Int
  upgradeCost6 : Int
  upgradeCost7 : Int
  upgradeCost8 : Int
  upgradeCost9 : Int
  unlockSource : Int
  rarity : Rarity
  positionOrder : Int
  chapterUnlock : Int
  sellPrice : Int
  gatyaRarity : GatchaRarity
  originalMaxLevel : Int
  unknown19 : Int
  forceTrueFormLevel : Int
  secondFormLevel1 : Int
  secondFormLevel2 : Int
  trueFormId : Int
  unknown24 : Int
  thirdFormLevel1 : Int
  thirdFormLevel2 : Int
  evolveCost : Int
  evolveItem28 : Int
  evolveItem29 : Int
  evolveItem30 : Int
  evolveItem31 : Int
  evolveItem32 : Int
  evolveItem33 : Int
  evolveItem34 : Int
  evolveItem35 : Int
  evolveItem36 : Int
  evolveItem37 : Int
  evolveItem38 : Int
  evolveItem39 : Int
  evolveItem40 : Int
  evolveItem41 : Int
  evolveItem42 : Int
  evolveItem43 : Int
  evolveItem44 : Int
  evolveItem45 : Int
  evolveItem46 : Int
  evolveItem47 : Int
  unknown48 : Int
  maxUpgradeLevelNoCatseye : Int
  maxUpgradeLevelCatseye : Int
  maxPlusUpgradeLevel : Int
  unknown52 : Int
  unknown53 : Int
  unknown54 : Int
  unknown55 : Int
  evolveCount : Int
  gameVersion : Int
  npSellPrice : Int
  unknown59 : Int
  unknown60 : Int
  unknown61 : Int
  unknown62 : Int
deriving DecidableEq

/-- `UnitBuyData.extend`: zero-pad the raw list up to 63 entries. -/
def unitBuyExtend (raw : List Int) : List Int :=
  raw ++ List.replicate (63 - raw.length) 0

/-- `UnitBuyData.__init__` / `assign`: zero-extend, then read every slot;
`none` models the `ValueError` that the `Rarity(...)` / `GatchaRarity(...)`
enum constructors raise on out-of-range values. -/
def unitBuyFromRaw (catId : Int) (raw0 : List Int) : Option UnitBuyData :=
  let raw := unitBuyExtend raw0
  match Rarity.fromValue (raw.getD 13 0), GatchaRarity.fromValue (raw.getD 17 0) with
  | some r, some g =>
    some
      { catId := catId
        stageUnlock := raw.getD 0 0
        purchaseCost := raw.getD 1 0
        upgradeCost0 := raw.getD 2 0
        upgradeCost1 := raw.getD 3 0
        upgradeCost2 := raw.getD 4 0
        upgradeCost3 := raw.getD 5 0
        upgradeCost4 := raw.getD 6 0
        upgradeCost5 := raw.getD 7 0
        upgradeCost6 := raw.getD 8 0
        upgradeCost7 := raw.getD 9 0
        upgradeCost8 := raw.getD 10 0
        upgradeCost9 := raw.getD 11 0
        unlockSource := raw.getD 12 0
        rarity := r
        positionOrder := raw.getD 14 0
        chapterUnlock := raw.getD 15 0
        sellPrice := raw.getD 16 0
        gatyaRarity := g
        originalMaxLevel := raw.getD 18 0
        unknown19 := raw.getD 19 0
        forceTrueFormLevel := raw.getD 20 0
        secondFormLevel1 := raw.getD 21 0
        secondFormLevel2 := raw.getD 22 0
        trueFormId := raw.getD 23 0
        unknown24 := raw.getD 24 0
        thirdFormLevel1 := raw.getD 25 0
        thirdFormLevel2 := raw.getD 26 0
        evolveCost := raw.getD 27 0
        evolveItem28 := raw.getD 28 0
        evolveItem29 := raw.getD 29 0
        evolveItem30 := raw.getD 30 0
        evolveItem31 := raw.getD 31 0
        evolveItem32 := raw.getD 32 0
        evolveItem33 := raw.getD 33 0
        evolveItem34 := raw.getD 34 0
        evolveItem35 := raw.getD 35 0
        evolveItem36 := raw.getD 36 0
        evolveItem37 := raw.getD 37 0
        evolveItem38 := raw.getD 38 0
        evolveItem39 := raw.getD 39 0
        evolveItem40 := raw.getD 40 0
        evolveItem41 := raw.getD 41 0
        evolveItem42 := raw.getD 42 0
        evolveItem43 := raw.getD 43 0
        evolveItem44 := raw.getD 44 0
        evolveItem45 := raw.getD 45 0
        evolveItem46 := raw.getD 46 0
        evolveItem47 := raw.getD 47 0
        unknown48 := raw.getD 48 0
        maxUpgradeLevelNoCatseye := raw.getD 49 0
        maxUpgradeLevelCatseye := raw.getD 50 0
        maxPlusUpgradeLevel := raw.getD 51 0
        unknown52 := raw.getD 52 0
        unknown53 := raw.getD 53 0
        unknown54 := raw.getD 54 0
        unknown55 := raw.getD 55 0
        evolveCount := raw.getD 56 0
        gameVersion := raw.getD 57 0
        npSellPrice := raw.getD 58 0
        unknown59 := raw.getD 59 0
        unknown60 := raw.getD 60 0
        unknown61 := raw.getD 61 0
        unknown62 := raw.getD 62 0 }
  | _, _ => none

/-- `UnitBuyData.to_raw_data`: the 63-entry slot list. -/
def unitBuyToRaw (u : UnitBuyData) : List Int :=
  [u.stageUnlock, u.purchaseCost, u.upgradeCost0, u.upgradeCost1, u.upgradeCost2,
   u.upgradeCost3, u.upgradeCost4, u.upgradeCost5, u.upgradeCost6, u.upgradeCost7,
   u.upgradeCost8, u.upgradeCost9, u.unlockSource, u.rarity.value, u.positionOrder,
   u.chapterUnlock, u.sellPrice, u.gatyaRarity.value, u.originalMaxLevel,
   u.unknown19, u.forceTrueFormLevel, u.secondFormLevel1, u.secondFormLevel2,
   u.trueFormId, u.unknown24, u.thirdFormLevel1, u.thirdFormLevel2, u.evolveCost,
   u.evolveItem28, u.evolveItem29, u.evolveItem30, u.evolveItem31, u.evolveItem32,
   u.evolveItem33, u.evolveItem34, u.evolveItem35, u.evolveItem36, u.evolveItem37,
   u.evolveItem38, u.evolveItem39, u.evolveItem40, u.evolveItem41, u.evolveItem42,
   u.evolveItem43, u.evolveItem44, u.evolveItem45, u.evolveItem46, u.evolveItem47,
   u.unknown48, u.maxUpgradeLevelNoCatseye, u.maxUpgradeLevelCatseye,
   u.maxPlusUpgradeLevel, u.unknown52, u.unknown53, u.unknown54, u.unknown55,
   u.evolveCount, u.gameVersion, u.npSellPrice, u.unknown59, u.unknown60,
   u.unknown61, u.unknown62]

/-- `UnitBuyData.set_obtainable`: write the `-1` sentinel into the
`game_version` slot, or clear it to `0` when re-enabling. -/
def ubSetObtainable (obtainable : Bool) (u : UnitBuyData) : UnitBuyData :=
  if !obtainable then { u with gameVersion := -1 }
  else { u with gameVersion := if u.gameVersion = -1 then 0 else u.gameVersion }

/-- `UnitBuyData.is_obtainable`. -/
def ubIsObtainable (u : UnitBuyData) : Bool :=
  u.gameVersion != -1

/-- `NyankoPictureBookData` (bcml cats.py). -/
structure NyankoPictureBookData where
  catId : Int
  obtainable : Bool
  limited : Bool
  totalForms : Int
  unknown : Int
  scale0 : Int
  scale1 : Int
  scale2 : Int
  scale3 : Int
  other : List Int
deriving DecidableEq

/-- `NyankoPictureBookData.set_obtainable`. -/
def npbSetObtainable (obtainable : Bool) (n : NyankoPictureBookData) : NyankoPictureBookData :=
  { n with obtainable := obtainable }

/-- `NyankoPictureBookData.is_obtainable`. -/
def npbIsObtainable (n : NyankoPictureBookData) : Bool :=
  n.obtainable

/-- `Cat` (bcml cats.py), restricted to the record fields its obtainability
methods touch plus the talent/evolve-text payloads; the `forms` dict
(animations and icons) carries image data outside the data plane modelled
here and is not read or written by `set_obtainable`/`is_obtainable`. -/
structure Cat where
  catId : Int
  unitBuyData : UnitBuyData
  talent : Option (List Int)
  nyankoPictureBookData : NyankoPictureBookData
  evolveText : Option (List String)
deriving DecidableEq

/-- `Cat.set_obtainable`: forward to both the unitbuy record and the picture
book record. -/
def Cat.setObtainable (obtainable : Bool) (c : Cat) : Cat :=
  { c with
    unitBuyData := ubSetObtainable obtainable c.unitBuyData
    nyankoPictureBookData := npbSetObtainable obtainable c.nyankoPictureBookData }

/-- `Cat.is_obtainable`: conjunction of both records. -/
def Cat.isObtainable (c : Cat) : Bool :=
  ubIsObtainable c.unitBuyData && npbIsObtainable c.nyankoPictureBookData

/-! Concrete fixtures used to evaluate the embedded code at specific
inputs. -/

/-- A modern (post-8.9.0) game version. -/
def gv900 : GameVersion :=
  { major := 9, minor := 0, patch := 0, javaVariant := false }

/-- A pre-8.9.0 game version. -/
def gv800 : GameVersion :=
  { major := 8, minor := 0, patch := 0, javaVariant := false }

/-- A `GameFile` holding only its original ciphertext `[7]`, in a modern
non-ImageDataLocal Local pack, plaintext never read. -/
def c1File : GameFile :=
  { encData := some [7], fileName := "a.csv", packName := "DataLocal"
    cc := .EN, gv := gv900, key := none, iv := none
    decCache := none, originalDecData := none }

/-- A decrypted-only file with 1 byte of plaintext in pack `DataLocal`. -/
def c2FileA : GameFile :=
  { encData := none, fileName := "foo.csv", packName := "DataLocal"
    cc := .EN, gv := gv900, key := none, iv := none
    decCache := some [1], originalDecData := none }

/-- A decrypted-only file with 2 bytes of plaintext in pack `ImageLocal`. -/
def c2FileB : GameFile :=
  { c2FileA with packName := "ImageLocal", decCache := some [1, 2] }

/-- A catalog holding two Local packs that both expose `foo.csv`,
`DataLocal` inserted first with the shorter plaintext. -/
def c2Catalog : GamePacks :=
  { packs :=
      [("DataLocal",
        { packName := "DataLocal", countryCode := .EN, gv := gv900
          files := [("foo.csv", c2FileA)], modified := false }),
       ("ImageLocal",
        { packName := "ImageLocal", countryCode := .EN, gv := gv900
          files := [("foo.csv", c2FileB)], modified := false })]
    countryCode := .EN, gv := gv900, modifiedPacks := [], csvCache := [] }

/-- The Local copy of `foo.csv` for the one-Local-one-Server scenario. -/
def c2FileL : GameFile :=
  { c2FileA with packName := "DataLocal" }

/-- The Server copy of `foo.csv` for the one-Local-one-Server scenario. -/
def c2FileS : GameFile :=
  { c2FileA with packName := "DataServer", decCache := some [9, 9, 9] }

/-- A catalog with exactly one Local and one Server pack exposing the same
name. -/
def c2CatalogLS : GamePacks :=
  { packs :=
      [("DataLocal",
        { packName := "DataLocal", countryCode := .EN, gv := gv900
          files := [("foo.csv", c2FileL)], modified := false }),
       ("DataServer",
        { packName := "DataServer", countryCode := .EN, gv := gv900
          files := [("foo.csv", c2FileS)], modified := false })]
    countryCode := .EN, gv := gv900, modifiedPacks := [], csvCache := [] }

/-- The `DataLocal` copy of `foo.csv` in the language-shadowing scenario. -/
def c3FilePlain : GameFile :=
  { c2FileA with decCache := some [1] }

/-- The `DataLocal_en` copy of `foo.csv` in the language-shadowing
scenario. -/
def c3FileEn : GameFile :=
  { c2FileA with packName := "DataLocal_en", decCache := some [2] }

/-- An EN catalog in which `foo.csv` exists in `DataLocal` and in the
language-tagged `DataLocal_en`. -/
def c3Catalog : GamePacks :=
  { packs :=
      [("DataLocal",
        { packName := "DataLocal", countryCode := .EN, gv := gv900
          files := [("foo.csv", c3FilePlain)], modified := false }),
       ("DataLocal_en",
        { packName := "DataLocal_en", countryCode := .EN, gv := gv900
          files := [("foo.csv", c3FileEn)], modified := false })]
    countryCode := .EN, gv := gv900, modifiedPacks := [], csvCache := [] }

/-- A file whose plaintext is `[3]`, for the unchanged-write scenario. -/
def c10File : GameFile :=
  { encData := none, fileName := "bar.csv", packName := "DataLocal"
    cc := .EN, gv := gv900, key := none, iv := none
    decCache := some [3], originalDecData := none }

/-- A one-pack catalog exposing `bar.csv` with plaintext `[3]`. -/
def c10Catalog : GamePacks :=
  { packs :=
      [("DataLocal",
        { packName := "DataLocal", countryCode := .EN, gv := gv900
          files := [("bar.csv", c10File)], modified := false })]
    countryCode := .EN, gv := gv900, modifiedPacks := [], csvCache := [] }

/-- A concrete `Stats` value (all slots zero). -/
def stats0 : Stats :=
  statsFromRaw 0 .FIRST []

/-- A concrete `UnitBuyData` value (all slots zero). -/
def unitBuy0 : UnitBuyData :=
  { catId := 0, stageUnlock := 0, purchaseCost := 0
    upgradeCost0 := 0, upgradeCost1 := 0, upgradeCost2 := 0, upgradeCost3 := 0
    upgradeCost4 := 0, upgradeCost5 := 0, upgradeCost6 := 0, upgradeCost7 := 0
    upgradeCost8 := 0, upgradeCost9 := 0
    unlockSource := 0, rarity := .NORMAL, positionOrder := 0, chapterUnlock := 0
    sellPrice := 0, gatyaRarity := .NONE, originalMaxLevel := 0, unknown19 := 0
    forceTrueFormLevel := 0, secondFormLevel1 := 0, secondFormLevel2 := 0
    trueFormId := 0, unknown24 := 0, thirdFormLevel1 := 0, thirdFormLevel2 := 0
    evolveCost := 0
    evolveItem28 := 0, evolveItem29 := 0, evolveItem30 := 0, evolveItem31 := 0
    evolveItem32 := 0, evolveItem33 := 0, evolveItem34 := 0, evolveItem35 := 0
    evolveItem36 := 0, evolveItem37 := 0, evolveItem38 := 0, evolveItem39 := 0
    evolveItem40 := 0, evolveItem41 := 0, evolveItem42 := 0, evolveItem43 := 0
    evolveItem44 := 0, evolveItem45 := 0, evolveItem46 := 0, evolveItem47 := 0
    unknown48 := 0, maxUpgradeLevelNoCatseye := 0, maxUpgradeLevelCatseye := 0
    maxPlusUpgradeLevel := 0, unknown52 := 0, unknown53 := 0, unknown54 := 0
    unknown55 := 0, evolveCount := 0, gameVersion := 0, npSellPrice := 0
    unknown59 := 0, unknown60 := 0, unknown61 := 0, unknown62 := 0 }

/-! Helper lemmas. -/

@[simp]
theorem intToBool_boolToInt (b : Bool) : intToBool (boolToInt b) = b := by
  cases b <;> rfl

@[simp]
theorem rarity_fromValue_value (r : Rarity) : Rarity.fromValue r.value = some r := by
  cases r <;> rfl

@[simp]
theorem gatchaRarity_fromValue_value (g : GatchaRarity) :
    GatchaRarity.fromValue g.value = some g := by
  cases g <;> rfl

/-- The declaration-order enum list is strictly ascending in `value`, so
Python's stable `sorted(MapIndexType, key=value)` returns it unchanged. -/
theorem mapIndexGetAll_sorted :
    mapIndexGetAll.Pairwise (fun a b => a.value < b.value) := by
  decide

theorem statsExtend_idem (l : List Int) : statsExtend (statsExtend l) = statsExtend l := by
  unfold statsExtend
  have h : 108 - (l ++ List.replicate (108 - l.length) 0).length = 0 := by
    simp
    omega
  rw [h]
  simp

theorem unitBuyExtend_idem (l : List Int) :
    unitBuyExtend (unitBuyExtend l) = unitBuyExtend l := by
  unfold unitBuyExtend
  have h : 63 - (l ++ List.replicate (63 - l.length) 0).length = 0 := by
    simp
    omega
  rw [h]
  simp

theorem dictGet_dictSet_self {κ α : Type} [DecidableEq κ] (d : List (κ × α)) (k : κ) (v : α) :
    dictGet (dictSet d k v) k = some v := by
  induction d with
  | nil => simp [dictGet, dictSet]
  | cons kv rest ih => by_cases h : kv.1 = k <;> simp [dictGet, dictSet, h, ih]

theorem dictGet_dictSet_ne {κ α : Type} [DecidableEq κ] (d : List (κ × α)) (k k2 : κ)
    (v : α) (h : k2 ≠ k) : dictGet (dictSet d k v) k2 = dictGet d k2 := by
  induction d with
  | nil => simp [dictGet, dictSet, Ne.symm h]
  | cons kv rest ih =>
    by_cases h0 : kv.1 = k
    · subst h0
      simp [dictGet, dictSet, Ne.symm h]
    · simp [dictGet, dictSet, h0, ih]

theorem dictGet_some_mem_keys {α : Type} (d : List (Int × α)) (k : Int) (v : α)
    (h : dictGet d k = some v) : k ∈ dictKeys d := by
  induction d with
  | nil => simp [dictGet] at h
  | cons kv rest ih =>
    rw [dictGet] at h
    by_cases h0 : kv.1 = k
    · simp [dictKeys, h0]
    · simp only [h0, if_false] at h
      simp [dictKeys]
      right
      have := ih h
      simpa [dictKeys] using this

/-- The per-id value rule of `import_maps`, at the level of a single looked
up entry. -/
def importRule {α : Type} [DecidableEq α] (gdMaps otherMaps : List (Int × α))
    (id : Int) (cur : Option α) : Option α :=
  match dictGet otherMaps id with
  | none => cur
  | some m =>
    match dictGet gdMaps id with
    | some g => if g ≠ m then some m else cur
    | none => some m

theorem importRule_idem {α : Type} [DecidableEq α] (gd other : List (Int × α))
    (id : Int) (cur : Option α) :
    importRule gd other id (importRule gd other id cur) = importRule gd other id cur := by
  cases h1 : dictGet other id with
  | none => simp [importRule, h1]
  | some m =>
    cases h2 : dictGet gd id with
    | none => simp [importRule, h1, h2]
    | some g => by_cases hg : g = m <;> simp [importRule, h1, h2, hg]

theorem dictGet_importStep_self {α : Type} [DecidableEq α] (gd other : List (Int × α))
    (id : Int) (selfM : List (Int × α)) :
    dictGet (importStep gd other id selfM) id = importRule gd other id (dictGet selfM id) := by
  cases h1 : dictGet other id with
  | none => simp [importStep, importRule, h1]
  | some m =>
    cases h2 : dictGet gd id with
    | none => simp [importStep, importRule, h1, h2, dictGet_dictSet_self]
    | some g =>
      by_cases hg : g = m <;>
        simp [importStep, importRule, h1, h2, hg, dictGet_dictSet_self]

theorem dictGet_importStep_ne {α : Type} [DecidableEq α] (gd other : List (Int × α))
    (id id2 : Int) (selfM : List (Int × α)) (h : id2 ≠ id) :
    dictGet (importStep gd other id selfM) id2 = dictGet selfM id2 := by
  cases h1 : dictGet other id with
  | none => simp [importStep, h1]
  | some m =>
    cases h2 : dictGet gd id with
    | none => simp [importStep, h1, h2, dictGet_dictSet_ne _ _ _ _ h]
    | some g =>
      by_cases hg : g = m <;>
        simp [importStep, h1, h2, hg, dictGet_dictSet_ne _ _ _ _ h]

theorem importMapsLoop_get {α : Type} [DecidableEq α] (gd other : List (Int × α))
    (keys : List Int) (selfM : List (Int × α)) (id : Int) :
    dictGet (importMapsLoop gd other keys selfM) id =
      if id ∈ keys then importRule gd other id (dictGet selfM id) else dictGet selfM id := by
  induction keys generalizing selfM with
  | nil => simp [importMapsLoop]
  | cons k rest ih =>
    rw [importMapsLoop, ih]
    by_cases hk : id = k
    · subst hk
      rw [dictGet_importStep_self]
      by_cases hr : id ∈ rest <;> simp [hr, importRule_idem]
    · rw [dictGet_importStep_ne _ _ _ _ _ hk]
      simp [List.mem_cons, hk]

theorem filterMap_ite_eq_filter_map {β γ : Type} (l : List β) (c1 c2 : β → Bool) (g : β → γ) :
    (l.filterMap (fun e => if c1 e then (if c2 e then none else some (g e)) else none))
      = (l.filter (fun e => c1 e && !c2 e)).map g := by
  induction l with
  | nil => rfl
  | cons e rest ih =>
    by_cases h1 : c1 e <;> by_cases h2 : c2 e <;>
      simp [List.filterMap_cons, List.filter_cons, h1, h2, ih]

/-- Closed form of `MapIndexType.fromIndex`: the interval cases of the scan
loop, including the Python quirks at the edges (negative indices wrap to the
last sorted element; indices strictly above the greatest marker fall through
to `none`). -/
theorem fromIndex_eq (i : Int) :
    MapIndexType.fromIndex i =
      if i < 0 then some .BEHEMOTH
      else if i < 1000 then some .SOL
      else if i < 2000 then some .REGULAR_EVENT
      else if i < 3000 then some .COLLAB
      else if i < 4000 then some .STORY
      else if i < 6000 then some .EXTRA
      else if i < 7000 then some .DOJO_CATCLAW
      else if i < 12000 then some .TOWER
      else if i < 13000 then some .CHALLENGE
      else if i < 14000 then some .UNCANNY
      else if i < 16000 then some .DRINK
      else if i < 20000 then some .LEGEND_QUEST
      else if i < 21000 then some .OUTBREAKS_EOC
      else if i < 22000 then some .OUTBREAKS_ITF
      else if i < 23000 then some .OUTBREAKS_COTC
      else if i < 24000 then some .FILIBUSTER
      else if i < 25000 then some .GAUNTLET
      else if i < 27000 then some .ENGIMA
      else if i < 31000 then some .COLLAB_GAUNTLET
      else if i = 31000 then some .BEHEMOTH
      else none := by
  by_cases c0 : i < 0
  · rw [if_pos c0]
    simp only [MapIndexType.fromIndex, mapIndexGetAll, fromIndexLoop, MapIndexType.value]
    rw [if_pos c0]
    decide
  · rw [if_neg c0]
    by_cases c1 : i < 1000
    · rw [if_pos c1]
      by_cases he : i = 0
      · subst he; decide
      · simp only [MapIndexType.fromIndex, mapIndexGetAll, fromIndexLoop, MapIndexType.value]
        iterate 2 rw [if_neg (by omega)]
        rw [if_pos (by omega)]
        decide
    · rw [if_neg c1]
      by_cases c2 : i < 2000
      · rw [if_pos c2]
        by_cases he : i = 1000
        · subst he; decide
        · simp only [MapIndexType.fromIndex, mapIndexGetAll, fromIndexLoop, MapIndexType.value]
          iterate 4 rw [if_neg (by omega)]
          rw [if_pos (by omega)]
          decide
      · rw [if_neg c2]
        by_cases c3 : i < 3000
        · rw [if_pos c3]
          by_cases he : i = 2000
          · subst he; decide
          · simp only [MapIndexType.fromIndex, mapIndexGetAll, fromIndexLoop, MapIndexType.value]
            iterate 6 rw [if_neg (by omega)]
            rw [if_pos (by omega)]
            decide
        · rw [if_neg c3]
          by_cases c4 : i < 4000
          · rw [if_pos c4]
            by_cases he : i = 3000
            · subst he; decide
            · simp only [MapIndexType.fromIndex, mapIndexGetAll, fromIndexLoop, MapIndexType.value]
              iterate 8 rw [if_neg (by omega)]
              rw [if_pos (by omega)]
              decide
          · rw [if_neg c4]
            by_cases c5 : i < 6000
            · rw [if_pos c5]
              by_cases he : i = 4000
              · subst he; decide
              · simp only [MapIndexType.fromIndex, mapIndexGetAll, fromIndexLoop, MapIndexType.value]
                iterate 10 rw [if_neg (by omega)]
                rw [if_pos (by omega)]
                decide
            · rw [if_neg c5]
              by_cases c6 : i < 7000
              · rw [if_pos c6]
                by_cases he : i = 6000
                · subst he; decide
                · simp only [MapIndexType.fromIndex, mapIndexGetAll, fromIndexLoop, MapIndexType.value]
                  iterate 12 rw [if_neg (by omega)]
                  rw [if_pos (by omega)]
                  decide
              · rw [if_neg c6]
                by_cases c7 : i < 12000
                · rw [if_pos c7]
                  by_cases he : i = 7000
                  · subst he; decide
                  · simp only [MapIndexType.fromIndex, mapIndexGetAll, fromIndexLoop, MapIndexType.value]
                    iterate 14 rw [if_neg (by omega)]
                    rw [if_pos (by omega)]
                    decide
                · rw [if_neg c7]
                  by_cases c8 : i < 13000
                  · rw [if_pos c8]
                    by_cases he : i = 12000
                    · subst he; decide
                    · simp only [MapIndexType.fromIndex, mapIndexGetAll, fromIndexLoop, MapIndexType.value]
                      iterate 16 rw [if_neg (by omega)]
                      rw [if_pos (by omega)]
                      decide
                  · rw [if_neg c8]
                    by_cases c9 : i < 14000
                    · rw [if_pos c9]
                      by_cases he : i = 13000
                      · subst he; decide
                      · simp only [MapIndexType.fromIndex, mapIndexGetAll, fromIndexLoop, MapIndexType.value]
                        iterate 18 rw [if_neg (by omega)]
                        rw [if_pos (by omega)]
                        decide
                    · rw [if_neg c9]
                      by_cases c10 : i < 16000
                      · rw [if_pos c10]
                        by_cases he : i = 14000
                        · subst he; decide
                        · simp only [MapIndexType.fromIndex, mapIndexGetAll, fromIndexLoop, MapIndexType.value]
                          iterate 20 rw [if_neg (by omega)]
                          rw [if_pos (by omega)]
                          decide
                      · rw [if_neg c10]
                        by_cases c11 : i < 20000
                        · rw [if_pos c11]
                          by_cases he : i = 16000
                          · subst he; decide
                          · simp only [MapIndexType.fromIndex, mapIndexGetAll, fromIndexLoop, MapIndexType.value]
                            iterate 22 rw [if_neg (by omega)]
                            rw [if_pos (by omega)]
                            decide
                        · rw [if_neg c11]
                          by_cases c12 : i < 21000
                          · rw [if_pos c12]
                            by_cases he : i = 20000
                            · subst he; decide
                            · simp only [MapIndexType.fromIndex, mapIndexGetAll, fromIndexLoop, MapIndexType.value]
                              iterate 24 rw [if_neg (by omega)]
                              rw [if_pos (by omega)]
                              decide
                          · rw [if_neg c12]
                            by_cases c13 : i < 22000
                            · rw [if_pos c13]
                              by_cases he : i = 21000
                              · subst he; decide
                              · simp only [MapIndexType.fromIndex, mapIndexGetAll, fromIndexLoop, MapIndexType.value]
                                iterate 26 rw [if_neg (by omega)]
                                rw [if_pos (by omega)]
                                decide
                            · rw [if_neg c13]
                              by_cases c14 : i < 23000
                              · rw [if_pos c14]
                                by_cases he : i = 22000
                                · subst he; decide
                                · simp only [MapIndexType.fromIndex, mapIndexGetAll, fromIndexLoop, MapIndexType.value]
                                  iterate 28 rw [if_neg (by omega)]
                                  rw [if_pos (by omega)]
                                  decide
                              · rw [if_neg c14]
                                by_cases c15 : i < 24000
                                · rw [if_pos c15]
                                  by_cases he : i = 23000
                                  · subst he; decide
                                  · simp only [MapIndexType.fromIndex, mapIndexGetAll, fromIndexLoop, MapIndexType.value]
                                    iterate 30 rw [if_neg (by omega)]
                                    rw [if_pos (by omega)]
                                    decide
                                · rw [if_neg c15]
                                  by_cases c16 : i < 25000
                                  · rw [if_pos c16]
                                    by_cases he : i = 24000
                                    · subst he; decide
                                    · simp only [MapIndexType.fromIndex, mapIndexGetAll, fromIndexLoop, MapIndexType.value]
                                      iterate 32 rw [if_neg (by omega)]
                                      rw [if_pos (by omega)]
                                      decide
                                  · rw [if_neg c16]
                                    by_cases c17 : i < 27000
                                    · rw [if_pos c17]
                                      by_cases he : i = 25000
                                      · subst he; decide
                                      · simp only [MapIndexType.fromIndex, mapIndexGetAll, fromIndexLoop, MapIndexType.value]
                                        iterate 34 rw [if_neg (by omega)]
                                        rw [if_pos (by omega)]
                                        decide
                                    · rw [if_neg c17]
                                      by_cases c18 : i < 31000
                                      · rw [if_pos c18]
                                        by_cases he : i = 27000
                                        · subst he; decide
                                        · simp only [MapIndexType.fromIndex, mapIndexGetAll, fromIndexLoop, MapIndexType.value]
                                          iterate 36 rw [if_neg (by omega)]
                                          rw [if_pos (by omega)]
                                          decide
                                      · rw [if_neg c18]
                                        by_cases ce : i = 31000
                                        · rw [if_pos ce]; subst ce; decide
                                        · rw [if_neg ce]
                                          simp only [MapIndexType.fromIndex, mapIndexGetAll, fromIndexLoop, MapIndexType.value]
                                          iterate 38 rw [if_neg (by omega)]

theorem filterMap_filter_not {β γ : Type} (l : List β) (c : β → Bool) (body : β → Option γ)
    (h : ∀ e, c e = true → body e = none) :
    (l.filter (fun e => !c e)).filterMap body = l.filterMap body := by
  induction l with
  | nil => rfl
  | cons e rest ih =>
    by_cases hc : c e
    · simp [List.filter_cons, hc, List.filterMap_cons, h e hc, ih]
    · simp [List.filter_cons, hc, List.filterMap_cons, ih]

/-- Every file collected by the `find_file` search loop is a pack entry of a
pack whose name carries no known language suffix. -/
theorem mem_collectFound {gp : GamePacks} {name : String} {f : GameFile}
    (h : f ∈ collectFound gp name) :
    ∃ pn pk, (pn, pk) ∈ gp.packs ∧ dictGet pk.files name = some f
      ∧ isLangSuffixed pn = false := by
  unfold collectFound at h
  rw [List.mem_filterMap] at h
  obtain ⟨e, he, hbody⟩ := h
  cases hg : dictGet e.2.files name with
  | none => rw [hg] at hbody; simp at hbody
  | some f2 =>
    rw [hg] at hbody
    by_cases hl : isLangSuffixed e.1
    · simp [hl] at hbody
    · simp [hl] at hbody
      subst hbody
      exact ⟨e.1, e.2, by simpa using he, hg, by simpa using hl⟩

/-- The search loop ignores language-suffixed packs: filtering them out of
the catalog does not change what is collected. -/
theorem collectFound_filter_lang (gp : GamePacks) (name : String) :
    collectFound { gp with packs := gp.packs.filter (fun e => !isLangSuffixed e.1) } name
      = collectFound gp name := by
  unfold collectFound
  exact filterMap_filter_not gp.packs _ _ (fun e he => by
    cases hg : dictGet e.2.files name <;> simp [hg, he])

/-! Claim theorems. -/

/-- C7: converting a `Stats` record to its raw list and back yields an equal
record (record equality in the source is raw-list equality), the emitted raw
list has exactly 108 entries, and a shorter raw list is zero-extended to
width 108 on construction; likewise for `UnitBuyData` with width 63. -/
theorem c7_stats_unitbuy_roundtrip (s : Stats) (u : UnitBuyData) (cid : Int)
    (f : FormType) (l lu : List Int) :
    statsToRaw (statsFromRaw s.catId s.form (statsToRaw s)) = statsToRaw s
    ∧ (statsToRaw s).length = 108
    ∧ (l.length ≤ 108 →
        statsFromRaw cid f l = statsFromRaw cid f (l ++ List.replicate (108 - l.length) 0))
    ∧ (unitBuyFromRaw u.catId (unitBuyToRaw u)).map unitBuyToRaw = some (unitBuyToRaw u)
    ∧ (unitBuyToRaw u).length = 63
    ∧ (lu.length ≤ 63 →
        unitBuyFromRaw cid lu = unitBuyFromRaw cid (lu ++ List.replicate (63 - lu.length) 0)) := by
  refine ⟨?_, rfl, fun _ => ?_, ?_, rfl, fun _ => ?_⟩
  · simp [statsToRaw, statsFromRaw, statsExtend]
  · show statsFromRaw cid f l = statsFromRaw cid f (statsExtend l)
    unfold statsFromRaw
    rw [statsExtend_idem]
  · simp [unitBuyFromRaw, unitBuyToRaw, unitBuyExtend]
  · show unitBuyFromRaw cid lu = unitBuyFromRaw cid (unitBuyExtend lu)
    unfold unitBuyFromRaw
    rw [unitBuyExtend_idem]

/-- Witness for C7 at concrete inputs. -/
theorem c7_witness :
    statsToRaw (statsFromRaw stats0.catId stats0.form (statsToRaw stats0)) = statsToRaw stats0
    ∧ ([1, 2, 3] : List Int).length ≤ 108
    ∧ statsFromRaw 5 .FIRST [1, 2, 3]
        = statsFromRaw 5 .FIRST ([1, 2, 3] ++ List.replicate (108 - ([1, 2, 3] : List Int).length) 0)
    ∧ (unitBuyFromRaw unitBuy0.catId (unitBuyToRaw unitBuy0)).map unitBuyToRaw
        = some (unitBuyToRaw unitBuy0)
    ∧ ([4] : List Int).length ≤ 63
    ∧ unitBuyFromRaw 5 [4] = unitBuyFromRaw 5 ([4] ++ List.replicate (63 - ([4] : List Int).length) 0) := by
  have h := c7_stats_unitbuy_roundtrip stats0 unitBuy0 5 .FIRST [1, 2, 3] [4]
  exact ⟨h.1, by decide, h.2.2.1 (by decide), h.2.2.2.1, by decide, h.2.2.2.2.2 (by decide)⟩

/-- C8: after `set_obtainable(False)` both `UnitBuyData.is_obtainable` and
`NyankoPictureBookData.is_obtainable` return false and the unitbuy
`game_version` slot is `-1`; after any `set_obtainable(b)` the sentinel
`game_version == -1` holds exactly when the picture-book `obtainable` flag is
false. -/
theorem c8_obtainability (c : Cat) (b : Bool) :
    (ubIsObtainable (Cat.setObtainable false c).unitBuyData = false
      ∧ npbIsObtainable (Cat.setObtainable false c).nyankoPictureBookData = false
      ∧ (Cat.setObtainable false c).unitBuyData.gameVersion = -1)
    ∧ ((Cat.setObtainable b c).unitBuyData.gameVersion = -1
        ↔ npbIsObtainable (Cat.setObtainable b c).nyankoPictureBookData = false) := by
  cases b
  · simp [Cat.setObtainable, ubSetObtainable, npbSetObtainable, ubIsObtainable,
      npbIsObtainable]
  · simp [Cat.setObtainable, ubSetObtainable, npbSetObtainable, ubIsObtainable,
      npbIsObtainable]
    split_ifs <;> first | rfl | simp | omega

/-- C9: pointwise behaviour of `Maps.import_maps` with current maps S
(`selfMaps`), incoming mod maps M (`otherMaps`) and fresh base maps B
(`gdMaps`): wherever M has a map that differs from B's (or B has none), the
result holds M's map; everywhere else the result keeps S's entry. -/
theorem c9_import_maps_three_way {α : Type} [DecidableEq α]
    (selfMaps otherMaps gdMaps : List (Int × α)) (id : Int) :
    dictGet (importMaps selfMaps otherMaps gdMaps) id =
      match dictGet otherMaps id with
      | some m =>
        match dictGet gdMaps id with
        | some g => if g = m then dictGet selfMaps id else some m
        | none => some m
      | none => dictGet selfMaps id := by
  unfold importMaps
  rw [importMapsLoop_get]
  by_cases hmem : id ∈ (dictKeys gdMaps ++ dictKeys otherMaps ++ dictKeys selfMaps).dedup
  · rw [if_pos hmem]
    cases h1 : dictGet otherMaps id with
    | none => simp [importRule, h1]
    | some m =>
      cases h2 : dictGet gdMaps id with
      | none => simp [importRule, h1, h2]
      | some g => by_cases hg : g = m <;> simp [importRule, h1, h2, hg]
  · rw [if_neg hmem]
    have h1 : dictGet otherMaps id = none := by
      cases h1 : dictGet otherMaps id with
      | none => rfl
      | some m =>
        exfalso
        apply hmem
        rw [List.mem_dedup]
        simp only [List.mem_append]
        exact Or.inl (Or.inr (dictGet_some_mem_keys _ _ _ h1))
    simp [h1]

/-- C4: `to_packs_lists` emits exactly the packs that are dirty (keyed in
`modified_packs` or carrying the `modified` flag), extended to every pack
when a new key or iv is supplied on a game version of at least 8.9.0, and
always excluding packs whose name marks them as Server packs.  The equation
characterises the full output: the filter condition is
dirty-or-reencrypt minus Server. -/
theorem c4_to_packs_lists_dirty (p : CryptoPrims) (gp : GamePacks) (key iv : Option String) :
    GamePacks.toPacksLists p gp key iv =
      (gp.packs.filter (fun e =>
          (gp.modifiedPacks.contains e.1 || e.2.modified
            || ((key.isSome || iv.isSome) && GameVersion.gev gp.gv gv890))
          && !isServerPack e.1)).map
        (fun e => PackFile.toPackListFile p e.2 key iv) := by
  unfold GamePacks.toPacksLists
  exact filterMap_ite_eq_filter_map gp.packs _ _ _

/-- C5 counterexample: rewriting a modern `ImageDataLocal` pack with a
caller-supplied key and iv does NOT re-enable the cipher: the derived cipher
still has `enable = false` and both `encrypt` and `decrypt` remain the
identity.  (Only `force_server` re-enables it in the source.) -/
theorem c5_counterexample :
    (getCipherFromPack prims1 .EN "ImageDataLocal" gv900 false
        (some "000102030405060708090a0b0c0d0e0f")
        (some "0f0e0d0c0b0a09080706050403020100")).enable = false
    ∧ AesCipher.encrypt prims1
        (getCipherFromPack prims1 .EN "ImageDataLocal" gv900 false
          (some "000102030405060708090a0b0c0d0e0f")
          (some "0f0e0d0c0b0a09080706050403020100")) [1, 2, 3] = [1, 2, 3]
    ∧ AesCipher.decrypt prims1
        (getCipherFromPack prims1 .EN "ImageDataLocal" gv900 false
          (some "000102030405060708090a0b0c0d0e0f")
          (some "0f0e0d0c0b0a09080706050403020100")) [1, 2, 3] = [1, 2, 3] := by
  refine ⟨by decide, ?_, ?_⟩ <;> decide

/-- C5 (amended): the pack-cipher derivation.  Server packs, versions below
8.9.0 and forced server mode yield ECB under the key
`hex(md5("battlecats")[:8])` encoded as UTF-8; the cipher's enable flag is
`pack is not ImageDataLocal OR force_server` — so for an ImageDataLocal pack
encrypt and decrypt are the identity unless server mode is forced, a
caller-supplied key/iv notwithstanding. -/
theorem c5_cipher_derivation (p : CryptoPrims) (cc : CountryCode) (packName : String)
    (gv : GameVersion) (forceServer : Bool) (key iv : Option String) :
    ((isServerPack packName || GameVersion.ltv gv gv890 || forceServer) = true →
      (getCipherFromPack p cc packName gv forceServer key iv).mode = AesMode.ECB
      ∧ (getCipherFromPack p cc packName gv forceServer key iv).key = battlecatsEcbKey p
      ∧ (getCipherFromPack p cc packName gv forceServer key iv).iv = none)
    ∧ (getCipherFromPack p cc packName gv forceServer key iv).enable
        = (!isImageDataLocalPack packName || forceServer)
    ∧ ((isImageDataLocalPack packName && !forceServer) = true →
      ∀ d, AesCipher.encrypt p (getCipherFromPack p cc packName gv forceServer key iv) d = d
        ∧ AesCipher.decrypt p (getCipherFromPack p cc packName gv forceServer key iv) d = d) := by
  refine ⟨fun h => ?_, ?_, fun h d => ?_⟩
  · simp [getCipherFromPack, h]
  · simp only [getCipherFromPack]
    cases forceServer <;> split_ifs <;> simp_all
  · have h1 : isImageDataLocalPack packName = true := by
      cases hx : isImageDataLocalPack packName <;> simp [hx] at h ⊢
    have h2 : forceServer = false := by
      cases hx : forceServer <;> simp [hx] at h ⊢
    subst h2
    have he : (getCipherFromPack p cc packName gv false key iv).enable = false := by
      simp only [getCipherFromPack]
      split_ifs <;> simp_all
    constructor <;> simp [AesCipher.encrypt, AesCipher.decrypt, he]

/-- Witness for C5 at concrete inputs: a pre-8.9.0 Server pack takes the
legacy ECB key, and an ImageDataLocal pack without forced server mode has an
identity cipher. -/
theorem c5_witness :
    (isServerPack "DataServer" || GameVersion.ltv gv800 gv890 || false) = true
    ∧ (getCipherFromPack prims1 .JP "DataServer" gv800 false none none).mode = AesMode.ECB
    ∧ (getCipherFromPack prims1 .JP "DataServer" gv800 false none none).key = battlecatsEcbKey prims1
    ∧ (isImageDataLocalPack "ImageDataLocal" && !false) = true
    ∧ AesCipher.encrypt prims1 (getCipherFromPack prims1 .TW "ImageDataLocal" gv900 false none none) [9] = [9] := by
  have h1 := c5_cipher_derivation prims1 .JP "DataServer" gv800 false none none
  have h2 := c5_cipher_derivation prims1 .TW "ImageDataLocal" gv900 false none none
  exact ⟨by decide, (h1.1 (by decide)).1, (h1.1 (by decide)).2.1, by decide,
    (h2.2.2 (by decide) [9]).1⟩

/-- C6 counterexample: `from_index(-1)` is `some BEHEMOTH`, not `none` — the
scan returns `types_sorted[-1]`, and Python negative indexing wraps to the
last (highest) marker.  Moreover indices in `(31000, 32000)` return `none`
although the claim requires the greatest-marker partition (BEHEMOTH). -/
theorem c6_counterexample :
    MapIndexType.fromIndex (-1) = some MapIndexType.BEHEMOTH
    ∧ MapIndexType.fromIndex 31500 = none := by
  exact ⟨by decide, by decide⟩

/-- C6 (amended): on `[0, 31000]` `from_index` returns the unique partition
whose marker is the greatest marker ≤ i; for negative indices it returns
`BEHEMOTH` (Python wrap-around), and for indices strictly above 31000 it
returns `none`. -/
theorem c6_from_index_amended (i : Int) :
    (0 ≤ i → i ≤ 31000 →
      ∃ t, MapIndexType.fromIndex i = some t ∧ t.value ≤ i
        ∧ ∀ u : MapIndexType, u.value ≤ i → u.value ≤ t.value)
    ∧ (i < 0 → MapIndexType.fromIndex i = some MapIndexType.BEHEMOTH)
    ∧ (31000 < i → MapIndexType.fromIndex i = none) := by
  refine ⟨fun h0 h31 => ?_, fun hneg => ?_, fun hbig => ?_⟩
  · by_cases c0 : i < 0
    · omega
    · by_cases c1 : i < 1000
      · refine ⟨.SOL, ?_, ?_, ?_⟩
        · rw [fromIndex_eq, if_neg c0, if_pos c1]
        · simp only [MapIndexType.value]; omega
        · intro u hu; cases u <;> simp only [MapIndexType.value] at hu ⊢ <;> omega
      · by_cases c2 : i < 2000
        · refine ⟨.REGULAR_EVENT, ?_, ?_, ?_⟩
          · rw [fromIndex_eq, if_neg c0, if_neg c1, if_pos c2]
          · simp only [MapIndexType.value]; omega
          · intro u hu; cases u <;> simp only [MapIndexType.value] at hu ⊢ <;> omega
        · by_cases c3 : i < 3000
          · refine ⟨.COLLAB, ?_, ?_, ?_⟩
            · rw [fromIndex_eq, if_neg c0, if_neg c1, if_neg c2, if_pos c3]
            · simp only [MapIndexType.value]; omega
            · intro u hu; cases u <;> simp only [MapIndexType.value] at hu ⊢ <;> omega
          · by_cases c4 : i < 4000
            · refine ⟨.STORY, ?_, ?_, ?_⟩
              · rw [fromIndex_eq, if_neg c0, if_neg c1, if_neg c2, if_neg c3, if_pos c4]
              · simp only [MapIndexType.value]; omega
              · intro u hu; cases u <;> simp only [MapIndexType.value] at hu ⊢ <;> omega
            · by_cases c5 : i < 6000
              · refine ⟨.EXTRA, ?_, ?_, ?_⟩
                · rw [fromIndex_eq, if_neg c0, if_neg c1, if_neg c2, if_neg c3, if_neg c4, if_pos c5]
                · simp only [MapIndexType.value]; omega
                · intro u hu; cases u <;> simp only [MapIndexType.value] at hu ⊢ <;> omega
              · by_cases c6 : i < 7000
                · refine ⟨.DOJO_CATCLAW, ?_, ?_, ?_⟩
                  · rw [fromIndex_eq, if_neg c0, if_neg c1, if_neg c2, if_neg c3, if_neg c4, if_neg c5, if_pos c6]
                  · simp only [MapIndexType.value]; omega
                  · intro u hu; cases u <;> simp only [MapIndexType.value] at hu ⊢ <;> omega
                · by_cases c7 : i < 12000
                  · refine ⟨.TOWER, ?_, ?_, ?_⟩
                    · rw [fromIndex_eq, if_neg c0, if_neg c1, if_neg c2, if_neg c3, if_neg c4, if_neg c5, if_neg c6, if_pos c7]
                    · simp only [MapIndexType.value]; omega
                    · intro u hu; cases u <;> simp only [MapIndexType.value] at hu ⊢ <;> omega
                  · by_cases c8 : i < 13000
                    · refine ⟨.CHALLENGE, ?_, ?_, ?_⟩
                      · rw [fromIndex_eq, if_neg c0, if_neg c1, if_neg c2, if_neg c3, if_neg c4, if_neg c5, if_neg c6, if_neg c7, if_pos c8]
                      · simp only [MapIndexType.value]; omega
                      · intro u hu; cases u <;> simp only [MapIndexType.value] at hu ⊢ <;> omega
                    · by_cases c9 : i < 14000
                      · refine ⟨.UNCANNY, ?_, ?_, ?_⟩
                        · rw [fromIndex_eq, if_neg c0, if_neg c1, if_neg c2, if_neg c3, if_neg c4, if_neg c5, if_neg c6, if_neg c7, if_neg c8, if_pos c9]
                        · simp only [MapIndexType.value]; omega
                        · intro u hu; cases u <;> simp only [MapIndexType.value] at hu ⊢ <;> omega
                      · by_cases c10 : i < 16000
                        · refine ⟨.DRINK, ?_, ?_, ?_⟩
                          · rw [fromIndex_eq, if_neg c0, if_neg c1, if_neg c2, if_neg c3, if_neg c4, if_neg c5, if_neg c6, if_neg c7, if_neg c8, if_neg c9, if_pos c10]
                          · simp only [MapIndexType.value]; omega
                          · intro u hu; cases u <;> simp only [MapIndexType.value] at hu ⊢ <;> omega
                        · by_cases c11 : i < 20000
                          · refine ⟨.LEGEND_QUEST, ?_, ?_, ?_⟩
                            · rw [fromIndex_eq, if_neg c0, if_neg c1, if_neg c2, if_neg c3, if_neg c4, if_neg c5, if_neg c6, if_neg c7, if_neg c8, if_neg c9, if_neg c10, if_pos c11]
                            · simp only [MapIndexType.value]; omega
                            · intro u hu; cases u <;> simp only [MapIndexType.value] at hu ⊢ <;> omega
                          · by_cases c12 : i < 21000
                            · refine ⟨.OUTBREAKS_EOC, ?_, ?_, ?_⟩
                              · rw [fromIndex_eq, if_neg c0, if_neg c1, if_neg c2, if_neg c3, if_neg c4, if_neg c5, if_neg c6, if_neg c7, if_neg c8, if_neg c9, if_neg c10, if_neg c11, if_pos c12]
                              · simp only [MapIndexType.value]; omega
                              · intro u hu; cases u <;> simp only [MapIndexType.value] at hu ⊢ <;> omega
                            · by_cases c13 : i < 22000
                              · refine ⟨.OUTBREAKS_ITF, ?_, ?_, ?_⟩
                                · rw [fromIndex_eq, if_neg c0, if_neg c1, if_neg c2, if_neg c3, if_neg c4, if_neg c5, if_neg c6, if_neg c7, if_neg c8, if_neg c9, if_neg c10, if_neg c11, if_neg c12, if_pos c13]
                                · simp only [MapIndexType.value]; omega
                                · intro u hu; cases u <;> simp only [MapIndexType.value] at hu ⊢ <;> omega
                              · by_cases c14 : i < 23000
                                · refine ⟨.OUTBREAKS_COTC, ?_, ?_, ?_⟩
                                  · rw [fromIndex_eq, if_neg c0, if_neg c1, if_neg c2, if_neg c3, if_neg c4, if_neg c5, if_neg c6, if_neg c7, if_neg c8, if_neg c9, if_neg c10, if_neg c11, if_neg c12, if_neg c13, if_pos c14]
                                  · simp only [MapIndexType.value]; omega
                                  · intro u hu; cases u <;> simp only [MapIndexType.value] at hu ⊢ <;> omega
                                · by_cases c15 : i < 24000
                                  · refine ⟨.FILIBUSTER, ?_, ?_, ?_⟩
                                    · rw [fromIndex_eq, if_neg c0, if_neg c1, if_neg c2, if_neg c3, if_neg c4, if_neg c5, if_neg c6, if_neg c7, if_neg c8, if_neg c9, if_neg c10, if_neg c11, if_neg c12, if_neg c13, if_neg c14, if_pos c15]
                                    · simp only [MapIndexType.value]; omega
                                    · intro u hu; cases u <;> simp only [MapIndexType.value] at hu ⊢ <;> omega
                                  · by_cases c16 : i < 25000
                                    · refine ⟨.GAUNTLET, ?_, ?_, ?_⟩
                                      · rw [fromIndex_eq, if_neg c0, if_neg c1, if_neg c2, if_neg c3, if_neg c4, if_neg c5, if_neg c6, if_neg c7, if_neg c8, if_neg c9, if_neg c10, if_neg c11, if_neg c12, if_neg c13, if_neg c14, if_neg c15, if_pos c16]
                                      · simp only [MapIndexType.value]; omega
                                      · intro u hu; cases u <;> simp only [MapIndexType.value] at hu ⊢ <;> omega
                                    · by_cases c17 : i < 27000
                                      · refine ⟨.ENGIMA, ?_, ?_, ?_⟩
                                        · rw [fromIndex_eq, if_neg c0, if_neg c1, if_neg c2, if_neg c3, if_neg c4, if_neg c5, if_neg c6, if_neg c7, if_neg c8, if_neg c9, if_neg c10, if_neg c11, if_neg c12, if_neg c13, if_neg c14, if_neg c15, if_neg c16, if_pos c17]
                                        · simp only [MapIndexType.value]; omega
                                        · intro u hu; cases u <;> simp only [MapIndexType.value] at hu ⊢ <;> omega
                                      · by_cases c18 : i < 31000
                                        · refine ⟨.COLLAB_GAUNTLET, ?_, ?_, ?_⟩
                                          · rw [fromIndex_eq, if_neg c0, if_neg c1, if_neg c2, if_neg c3, if_neg c4, if_neg c5, if_neg c6, if_neg c7, if_neg c8, if_neg c9, if_neg c10, if_neg c11, if_neg c12, if_neg c13, if_neg c14, if_neg c15, if_neg c16, if_neg c17, if_pos c18]
                                          · simp only [MapIndexType.value]; omega
                                          · intro u hu; cases u <;> simp only [MapIndexType.value] at hu ⊢ <;> omega
                                        · refine ⟨.BEHEMOTH, ?_, ?_, ?_⟩
                                          · rw [fromIndex_eq, if_neg c0, if_neg c1, if_neg c2, if_neg c3, if_neg c4, if_neg c5, if_neg c6, if_neg c7, if_neg c8, if_neg c9, if_neg c10, if_neg c11, if_neg c12, if_neg c13, if_neg c14, if_neg c15, if_neg c16, if_neg c17, if_neg c18, if_pos (by omega)]
                                          · simp only [MapIndexType.value]; omega
                                          · intro u hu; cases u <;> simp only [MapIndexType.value] at hu ⊢ <;> omega
  · rw [fromIndex_eq, if_pos hneg]
  · rw [fromIndex_eq]
    iterate 20 rw [if_neg (by omega)]

/-- Witness for C6 at the concrete index 2500 (partition COLLAB). -/
theorem c6_witness :
    (0 : Int) ≤ 2500 ∧ (2500 : Int) ≤ 31000
    ∧ ∃ t, MapIndexType.fromIndex 2500 = some t ∧ t.value ≤ 2500
        ∧ ∀ u : MapIndexType, u.value ≤ 2500 → u.value ≤ t.value := by
  exact ⟨by decide, by decide, (c6_from_index_amended 2500).1 (by decide) (by decide)⟩

/-- C1 (code-bug evaluation): `original_dec_data` is initialised to `None`
and never assigned anywhere in the source, so after the plaintext is lazily
read through `dec_data` — without ever being modified — `encrypt()` no longer
sees an untouched file: the `__dec_data == original_dec_data` test compares a
value with `None`, fails, and the file is re-padded and re-encrypted instead
of returning the held ciphertext `[7]` verbatim. -/
theorem c1_reencrypts_after_lazy_read :
    decDataVal prims1 (touchDecData prims1 c1File) = decDataVal prims1 c1File
    ∧ c1File.encData = some [7]
    ∧ GameFile.encrypt prims1 (touchDecData prims1 c1File) false none none
        = some (AesCipher.encrypt prims1
            (getCipherFromPack prims1 .EN "DataLocal" gv900 false none none)
            (padPkcs7 [7]))
    ∧ GameFile.encrypt prims1 (touchDecData prims1 c1File) false none none ≠ some [7] := by
  refine ⟨rfl, rfl, by decide, by decide⟩

/-- C2 counterexample: two Local packs expose `foo.csv`; the second holds the
larger plaintext, yet `find_file` returns the first-inserted entry — the
larger-plaintext rule claimed for Local/Local collisions never runs (the
first non-Server branch returns early). -/
theorem c2_counterexample :
    findFile prims1 c2Catalog "foo.csv" = some c2FileA
    ∧ isServerPack c2FileA.packName = false
    ∧ isServerPack c2FileB.packName = false
    ∧ (decDataVal prims1 c2FileB).length > (decDataVal prims1 c2FileA).length
    ∧ c2FileA ≠ c2FileB := by
  refine ⟨by decide, by decide, by decide, by decide, by decide⟩

/-- C2 (amended): with exactly two collected candidates, a Local (non-Server)
entry wins over a Server entry, two Local entries resolve to the
first-inserted one regardless of plaintext length, and the larger-plaintext
rule (ties to the first-inserted) applies when both entries are Server. -/
theorem c2_find_file_ranking (p : CryptoPrims) (gp : GamePacks) (name : String)
    (f0 f1 : GameFile) (hfound : collectFound gp name = [f0, f1]) :
    (isServerPack f0.packName = false → findFile p gp name = some f0)
    ∧ (isServerPack f0.packName = true → isServerPack f1.packName = false →
        findFile p gp name = some f1)
    ∧ (isServerPack f0.packName = true → isServerPack f1.packName = true →
        ((decDataVal p f0).length > (decDataVal p f1).length → findFile p gp name = some f0)
        ∧ ((decDataVal p f0).length < (decDataVal p f1).length → findFile p gp name = some f1)
        ∧ ((decDataVal p f0).length = (decDataVal p f1).length → findFile p gp name = some f0)) := by
  unfold findFile
  rw [hfound]
  refine ⟨fun h0 => ?_, fun h0 h1 => ?_,
    fun h0 h1 => ⟨fun hgt => ?_, fun hlt => ?_, fun heq => ?_⟩⟩
  · simp [rankFound, h0]
  · simp [rankFound, h0, h1]
  · simp [rankFound, h0, h1, hgt]
  · simp [rankFound, h0, h1]
    iterate 1 rw [if_neg (by omega)]
    rw [if_pos (by omega)]
  · simp [rankFound, h0, h1]
    intro h2 h3
    exact absurd h3 (by omega)

/-- Witness for C2: a catalog with exactly one Local and one Server pack
exposing the same name resolves to the Local entry. -/
theorem c2_witness :
    collectFound c2CatalogLS "foo.csv" = [c2FileL, c2FileS]
    ∧ isServerPack c2FileL.packName = false
    ∧ isServerPack c2FileS.packName = true
    ∧ findFile prims1 c2CatalogLS "foo.csv" = some c2FileL := by
  refine ⟨by decide, by decide, by decide, ?_⟩
  exact (c2_find_file_ranking prims1 c2CatalogLS "foo.csv" c2FileL c2FileS (by decide)).1
    (by decide)

/-- C3 counterexample: catalog language is EN (`country_code = EN`), yet with
`foo.csv` present in both `DataLocal` and `DataLocal_en` the lookup returns
the `DataLocal` copy — entries of packs suffixed with ANY known language tag,
the catalog's own language included, are skipped (the loop never consults the
configured language). -/
theorem c3_counterexample :
    c3Catalog.countryCode = CountryCode.EN
    ∧ findFile prims1 c3Catalog "foo.csv" = some c3FilePlain
    ∧ findFile prims1 c3Catalog "foo.csv" ≠ some c3FileEn
    ∧ dictGet c3Catalog.packs "DataLocal_en" ≠ none
    ∧ c3FilePlain ≠ c3FileEn := by
  refine ⟨rfl, by decide, by decide, by decide, by decide⟩

/-- C3 (amended): any file `find_file` returns comes from a pack without a
known language suffix, and removing every language-suffixed pack from the
catalog leaves the lookup result unchanged — language-tagged packs are
ignored wholesale, whether or not their tag matches the configured
language. -/
theorem c3_find_file_language (p : CryptoPrims) (gp : GamePacks) (name : String) :
    (∀ f, findFile p gp name = some f →
      ∃ pn pk, (pn, pk) ∈ gp.packs ∧ dictGet pk.files name = some f
        ∧ isLangSuffixed pn = false)
    ∧ findFile p { gp with packs := gp.packs.filter (fun e => !isLangSuffixed e.1) } name
        = findFile p gp name := by
  constructor
  · intro f hf
    have hmem : f ∈ collectFound gp name := by
      unfold findFile at hf
      rcases hc : collectFound gp name with _ | ⟨a, _ | ⟨b, _ | ⟨c, t⟩⟩⟩ <;> rw [hc] at hf <;>
        simp only [rankFound] at hf
      · simp at hf
      · simp at hf
        simp [hf]
      · split_ifs at hf <;> simp at hf <;> simp [hf]
      · simp at hf
    exact mem_collectFound hmem
  · unfold findFile
    rw [collectFound_filter_lang]

/-- Witness for C3: the returned `DataLocal` copy is certified to come from a
non-language-suffixed pack. -/
theorem c3_witness :
    ∃ pn pk, (pn, pk) ∈ c3Catalog.packs ∧ dictGet pk.files "foo.csv" = some c3FilePlain
      ∧ isLangSuffixed pn = false :=
  (c3_find_file_language prims1 c3Catalog "foo.csv").1 c3FilePlain (by decide)

/-- C10: writing a file whose current plaintext already equals the incoming
data is a no-op: `set_file` returns the found file and the catalog state
entirely unchanged — `modified_packs` gains no entry, no pack's `modified`
flag flips, and every pack's file map (and the CSV cache) is exactly as
before the call. -/
theorem c10_set_file_unchanged_noop (p : CryptoPrims) (gp : GamePacks) (name : String)
    (d : ByteData) (f : GameFile)
    (hname : ¬stripStr name = "")
    (hfind : findFile p gp name = some f)
    (hdata : decDataVal p f = d) :
    GamePacks.setFile p gp name d = Except.ok (f, gp) := by
  unfold GamePacks.setFile
  rw [if_neg hname, hfind]
  simp [hdata]

/-- Witness for C10 on a concrete one-pack catalog. -/
theorem c10_witness :
    GamePacks.setFile prims1 c10Catalog "bar.csv" [3] = Except.ok (c10File, c10Catalog) :=
  c10_set_file_unchanged_noop prims1 c10Catalog "bar.csv" [3] c10File
    (by decide) (by decide) (by decide)

end TBCML
